import Mathlib

/-!
# OpenBlack `SkinnedModel` : the L3D loader and `Draw`

A shallow embedding of `src/3D/SkinnedModel.cpp`.

* The `void* data_` argument is a raw pointer: the code indexes it without ever
  consulting `size`.  Memory is therefore a total function from byte offsets
  (relative to the pointer) to bytes; offsets `>= size` are whatever lies
  behind the buffer.
* Every dereference of the pointer is recorded as an `Access` (offset, length),
  so that "reads in bounds" is a property of a run.
* `uint32_t` arithmetic is `Nat` arithmetic with an explicit `% 2 ^ 32`
  where the source multiplies; pointer arithmetic (`buffer + offset`) is
  64-bit and is not wrapped.
* Loop counters are `Nat` (the source uses `int`, compared as unsigned).
* `LoadFromL3D` is the call when every allocation succeeds; `LoadFromL3DWith` takes
  the allocator as a parameter and ends with `badAlloc` at the first allocation
  (`reserve`, `new`, `make_unique`, a map node) that fails.
* `printf` output is not modelled.
-/

namespace OpenBlack

/-! ## Memory and reads -/

/-- Bytes reachable from the `buffer` pointer, by offset. -/
abbrev Buffer := Nat → Nat

/-- One dereference of the buffer pointer: `len` bytes at `off`.  `used` is
false when the value read cannot reach the model (it is only printed, or only
turned into a pointer that is never dereferenced). -/
structure Access where
  off : Nat
  len : Nat
  used : Bool
deriving DecidableEq, Repr

/-- The last byte of an access lies inside a buffer of `size` bytes. -/
def Access.inBounds (a : Access) (size : Nat) : Prop := a.off + a.len ≤ size

instance (a : Access) (size : Nat) : Decidable (a.inBounds size) := by
  unfold Access.inBounds; infer_instance

/-- The byte offset `i` is covered by the access. -/
def Access.covers (a : Access) (i : Nat) : Prop := a.off ≤ i ∧ i < a.off + a.len

instance (a : Access) (i : Nat) : Decidable (a.covers i) := by
  unfold Access.covers; infer_instance

/-- A computation that reads the buffer: `load` uses the bytes it reads,
`touch` reads bytes whose value is not used for the model. -/
inductive Rd (α : Type) where
  | ret : α → Rd α
  | load : Nat → Nat → (List Nat → Rd α) → Rd α
  | touch : Nat → Nat → Rd α → Rd α

/-- Sequencing of reading computations. -/
def Rd.bind {α β : Type} : Rd α → (α → Rd β) → Rd β
  | Rd.ret a, f => f a
  | Rd.load off len k, f => Rd.load off len (fun bs => (k bs).bind f)
  | Rd.touch off len k, f => Rd.touch off len (k.bind f)

instance : Monad Rd where
  pure := Rd.ret
  bind := Rd.bind

/-- The `len` bytes stored at `off`. -/
def readBytes (data : Buffer) (off len : Nat) : List Nat :=
  (List.range len).map (fun i => data (off + i) % 256)

/-- Run a reading computation on a buffer: its value and its accesses, in order. -/
def Rd.run {α : Type} : Rd α → Buffer → α × List Access
  | Rd.ret a, _ => (a, [])
  | Rd.load off len k, data =>
      let r := (k (readBytes data off len)).run data
      (r.1, ⟨off, len, true⟩ :: r.2)
  | Rd.touch off len k, data =>
      let r := k.run data
      (r.1, ⟨off, len, false⟩ :: r.2)

/-- Little-endian value of a byte string. -/
def leNat : List Nat → Nat
  | [] => 0
  | b :: bs => b + 256 * leNat bs

/-- Two's-complement reading of a 32-bit pattern (`int32_t`). -/
def toInt32 (n : Nat) : Int :=
  if n % 2 ^ 32 < 2 ^ 31 then ((n % 2 ^ 32 : Nat) : Int) else ((n % 2 ^ 32 : Nat) : Int) - 2 ^ 32

/-- Dereference a `uint8_t*`. -/
def readU8 (off : Nat) : Rd Nat := Rd.load off 1 (fun bs => Rd.ret (leNat bs))

/-- Dereference a `uint32_t*` (little-endian). -/
def readU32 (off : Nat) : Rd Nat := Rd.load off 4 (fun bs => Rd.ret (leNat bs))

/-- Dereference an `int32_t*` (little-endian, two's complement). -/
def readI32 (off : Nat) : Rd Int := Rd.load off 4 (fun bs => Rd.ret (toInt32 (leNat bs)))

/-- The `uint32_t` stored at `off`, read directly. -/
def u32At (data : Buffer) (off : Nat) : Nat := leNat (readBytes data off 4)

/-- The `int32_t` stored at `off`, read directly. -/
def i32At (data : Buffer) (off : Nat) : Int := toInt32 (u32At data off)

/-! ## Record layouts (`L3DHeader`, `L3D_Mesh`, `L3D_SubMesh`, ...) -/

/-- The header starts right after the magic: `buffer + 4`. -/
def headerBase : Nat := 4
/-- Byte offset of `L3DHeader::numMeshes` in the header. -/
def L3DHeader.numMeshes : Nat := 8
/-- Byte offset of `L3DHeader::meshListOffset` in the header. -/
def L3DHeader.meshListOffset : Nat := 12
/-- Byte offset of `L3DHeader::numSkins` in the header. -/
def L3DHeader.numSkins : Nat := 52
/-- Byte offset of `L3DHeader::skinListOffset` in the header. -/
def L3DHeader.skinListOffset : Nat := 56

/-- Byte offset of `L3D_Mesh::numSubMeshes` (after four `uint8_t`). -/
def L3D_Mesh.numSubMeshes : Nat := 4
/-- Byte offset of `L3D_Mesh::subMeshOffset`. -/
def L3D_Mesh.subMeshOffset : Nat := 8
/-- Byte offset of `L3D_Mesh::numBones`. -/
def L3D_Mesh.numBones : Nat := 12
/-- Byte offset of `L3D_Mesh::bonesOffset`. -/
def L3D_Mesh.bonesOffset : Nat := 16

/-- Byte offset of `L3D_SubMesh::skinID`. -/
def L3D_SubMesh.skinID : Nat := 8
/-- Byte offset of `L3D_SubMesh::numVerticies`. -/
def L3D_SubMesh.numVerticies : Nat := 16
/-- Byte offset of `L3D_SubMesh::verticiesOffset`. -/
def L3D_SubMesh.verticiesOffset : Nat := 20
/-- Byte offset of `L3D_SubMesh::numTriangles`. -/
def L3D_SubMesh.numTriangles : Nat := 24
/-- Byte offset of `L3D_SubMesh::trianglesOffset`. -/
def L3D_SubMesh.trianglesOffset : Nat := 28
/-- Byte offset of `L3D_SubMesh::boneVertLUTOffset`. -/
def L3D_SubMesh.boneVertLUTOffset : Nat := 36

/-- The value of `sizeof(L3D_Vertex)`: eight `float`. -/
def sizeofL3D_Vertex : Nat := 32
/-- The value of `sizeof(L3D_Bone)`: three `int32_t` and twelve `float`. -/
def sizeofL3D_Bone : Nat := 3 * 4 + 12 * 4
/-- Byte offset of `L3D_Skin::data` (after `skinID`). -/
def L3D_Skin.data : Nat := 4
/-- Number of bytes of `L3D_Skin::data`: `256 * 256` values of type `uint16_t`. -/
def sizeofSkinData : Nat := 256 * 256 * 2


/-! ## GPU resources and the model -/

/-- The OpenGL enumerants named by the source. -/
inductive GLenum where
  | GL_FLOAT
  | GL_UNSIGNED_SHORT
  | GL_RGB5_A1
  | GL_BGRA
  | GL_UNSIGNED_SHORT_4_4_4_4_REV
deriving DecidableEq, Repr

/-- The arguments of `VertexAttrib(index, size, type, stride, offset)`. -/
structure VertexAttrib where
  index : Nat
  size : Nat
  type : GLenum
  stride : Nat
  offset : Nat
deriving DecidableEq, Repr

/-- Modelled from the spec: the class `VertexBuffer` (its source is not
part of `SkinnedModel.cpp`).  The GPU resources "copy out the data they need":
the buffer keeps the `vertexCount * strideBytes` bytes found at the pointer it is
handed, together with the count and the stride. -/
structure VertexBuffer where
  data : List Nat
  vertexCount : Nat
  strideBytes : Nat
deriving DecidableEq, Repr

/-- Modelled from the spec: the class `IndexBuffer` (its source is not
part of `SkinnedModel.cpp`).  It keeps the `indicesCount` 16-bit indices
(two bytes each) found at the pointer it is handed, the count and the type. -/
structure IndexBuffer where
  data : List Nat
  indicesCount : Nat
  type : GLenum
deriving DecidableEq, Repr

/-- The arguments of `Mesh(vertexBuffer, indexBuffer, decl)`. -/
structure Mesh where
  vertexBuffer : VertexBuffer
  indexBuffer : IndexBuffer
  decl : List VertexAttrib
deriving DecidableEq, Repr

/-- Modelled from the spec: the class `Texture2D` (its source is not part
of `SkinnedModel.cpp`).  It keeps its constructor arguments, the texel pointer
being replaced by the `width * height` 16-bit texels (two bytes each) found
there. -/
structure Texture2D where
  width : Nat
  height : Nat
  internalFormat : GLenum
  format : GLenum
  type : GLenum
  data : List Nat
deriving DecidableEq, Repr

/-- Lookup in an associative container (`std::map::find`). -/
def mapFind {κ ν : Type} [DecidableEq κ] : List (κ × ν) → κ → Option ν
  | [], _ => none
  | (k1, v) :: t, k => if k1 = k then some v else mapFind t k

/-- The effect of `m[k] = v`: the entry for `k` is overwritten when it exists and
created otherwise. -/
def mapAssign {κ ν : Type} [DecidableEq κ] : List (κ × ν) → κ → ν → List (κ × ν)
  | [], k, v => [(k, v)]
  | (k1, v1) :: t, k, v => if k1 = k then (k, v) :: t else (k1, v1) :: mapAssign t k v

/-- The effect of evaluating `m[k]` as a value (`std::map::operator[]`): when `k`
has no entry, one is inserted with the value-initialised `dflt`. -/
def mapSubscript {κ ν : Type} [DecidableEq κ] (m : List (κ × ν)) (k : κ) (dflt : ν) :
    ν × List (κ × ν) :=
  match mapFind m k with
  | some v => (v, m)
  | none => (dflt, m ++ [(k, dflt)])

/-- The keys of an associative container. -/
def mapKeys {κ ν : Type} (m : List (κ × ν)) : List κ := m.map Prod.fst

/-- Modelled from the spec: the data members of `SkinnedModel` (declared in
`3D/SkinnedModel.h`, which is not among the sources): "an ordered sequence of
GPU mesh resources, a mapping from submesh index to skin identifier, and a mapping
from skin identifier to GPU texture resource".  Skin identifiers are signed 32-bit
values; a texture entry holds a `unique_ptr`, which may be null (`none`). -/
structure SkinnedModel where
  submeshes : List Mesh
  submeshSkinMap : List (Nat × Int)
  textures : List (Int × Option Texture2D)
deriving DecidableEq, Repr

/-- A freshly constructed model. -/
def SkinnedModel.empty : SkinnedModel := ⟨[], [], []⟩

/-- The exceptions that leave `LoadFromL3D`: the `std::runtime_error` of line 125,
and the exception of an allocation that fails (`std::bad_alloc`, or
`std::length_error` from `reserve`). -/
inductive LoadError where
  | invalidL3DFile
  | badAlloc
deriving DecidableEq, Repr

/-! ## `SkinnedModel::LoadFromL3D` -/

/-- The vertex declaration built for every submesh (lines 150-153). -/
def vertexDecl : List VertexAttrib :=
  [ ⟨0, 3, GLenum.GL_FLOAT, 32, 0⟩,
    ⟨1, 2, GLenum.GL_FLOAT, 32, 12⟩,
    ⟨2, 3, GLenum.GL_FLOAT, 32, 20⟩ ]

/-- The call `new VertexBuffer(buffer + off, count, stride)`. -/
def newVertexBuffer (off count stride : Nat) : Rd VertexBuffer :=
  Rd.load off (count * stride) (fun bs => Rd.ret ⟨bs, count, stride⟩)

/-- The call `new IndexBuffer(buffer + off, count, GL_UNSIGNED_SHORT)`. -/
def newIndexBuffer (off count : Nat) : Rd IndexBuffer :=
  Rd.load off (count * 2) (fun bs => Rd.ret ⟨bs, count, GLenum.GL_UNSIGNED_SHORT⟩)

/-- One iteration of the submesh loop (lines 142-159) for the record at
`buffer + subMesh`, at loop index `sm`. -/
def loadSubMesh (subMesh sm : Nat) (self : SkinnedModel) : Rd SkinnedModel := do
  let verticiesOffset ← readU32 (subMesh + L3D_SubMesh.verticiesOffset)
  let trianglesOffset ← readU32 (subMesh + L3D_SubMesh.trianglesOffset)
  -- `boneVertOffset` is computed and never dereferenced
  Rd.touch (subMesh + L3D_SubMesh.boneVertLUTOffset) 4 (pure ())
  let numVerticies ← readU32 (subMesh + L3D_SubMesh.numVerticies)
  let vertexBuffer ← newVertexBuffer verticiesOffset numVerticies sizeofL3D_Vertex
  let numTriangles ← readU32 (subMesh + L3D_SubMesh.numTriangles)
  -- `subMesh->numTriangles * 3` is a `uint32_t` product
  let indexBuffer ← newIndexBuffer trianglesOffset (numTriangles * 3 % 2 ^ 32)
  let skinID ← readI32 (subMesh + L3D_SubMesh.skinID)
  pure { self with
    submeshes := self.submeshes ++ [⟨vertexBuffer, indexBuffer, vertexDecl⟩]
    submeshSkinMap := mapAssign self.submeshSkinMap sm skinID }

/-- The submesh loop (lines 140-160): `n` iterations remain, the next index is
`sm`; `submeshOffsets` is the offset of the table of submesh offsets. -/
def loadSubMeshes (submeshOffsets : Nat) : Nat → Nat → SkinnedModel → Rd SkinnedModel
  | 0, _, self => pure self
  | n + 1, sm, self => do
      let subMesh ← readU32 (submeshOffsets + 4 * sm)
      let self1 ← loadSubMesh subMesh sm self
      loadSubMeshes submeshOffsets n (sm + 1) self1

/-- The bone loop (lines 163-167): each bone record is copied and its parent is
printed; `n` iterations remain, the next index is `b`. -/
def loadBones (bones : Nat) : Nat → Nat → Rd Unit
  | 0, _ => pure ()
  | n + 1, b => Rd.touch (bones + sizeofL3D_Bone * b) sizeofL3D_Bone (loadBones bones n (b + 1))

/-- The body of the mesh loop (lines 135-170) for the record at `buffer + mesh`. -/
def loadMesh (mesh : Nat) (self : SkinnedModel) : Rd SkinnedModel := do
  let numSubMeshes ← readU32 (mesh + L3D_Mesh.numSubMeshes)
  let subMeshOffset ← readU32 (mesh + L3D_Mesh.subMeshOffset)
  let self1 ← loadSubMeshes subMeshOffset numSubMeshes 0 self
  let bonesOffset ← readU32 (mesh + L3D_Mesh.bonesOffset)
  let numBones ← readU32 (mesh + L3D_Mesh.numBones)
  loadBones bonesOffset numBones 0
  pure self1

/-- Modelled from the spec: the conversion of the `uint32_t` field
`L3D_Skin::skinID` to the key type of `_textures` (declared in `3D/SkinnedModel.h`):
the signed skin identifier with the same 32-bit pattern. -/
def skinKey (skinID : Nat) : Int := toInt32 skinID

/-- One iteration of the skin loop (lines 177-178) for the record at
`buffer + skin`. -/
def loadSkin (skin : Nat) (self : SkinnedModel) : Rd SkinnedModel := do
  let skinID ← readU32 skin
  let data ← Rd.load (skin + L3D_Skin.data) sizeofSkinData (fun bs => Rd.ret bs)
  let texture : Texture2D :=
    ⟨256, 256, GLenum.GL_RGB5_A1, GLenum.GL_BGRA, GLenum.GL_UNSIGNED_SHORT_4_4_4_4_REV, data⟩
  pure { self with textures := mapAssign self.textures (skinKey skinID) (some texture) }

/-- The skin loop (lines 176-179): `n` iterations remain, the next index is `s`. -/
def loadSkins (skinOffsets : Nat) : Nat → Nat → SkinnedModel → Rd SkinnedModel
  | 0, _, self => pure self
  | n + 1, s, self => do
      let skin ← readU32 (skinOffsets + 4 * s)
      let self1 ← loadSkin skin self
      loadSkins skinOffsets n (s + 1) self1

/-- The test of line 124, with the short-circuit evaluation of `||`: true when
the buffer does not start with `L3D0`. -/
def badMagic : Rd Bool := do
  let b0 ← readU8 0
  if b0 ≠ 76 then pure true else
  let b1 ← readU8 1
  if b1 ≠ 51 then pure true else
  let b2 ← readU8 2
  if b2 ≠ 68 then pure true else
  let b3 ← readU8 3
  pure (decide (b3 ≠ 48))

/-- The one iteration of the mesh loop that runs (lines 135-170, `m = 0`):
`meshOffsets` is the offset of the table of mesh offsets. -/
def loadFirstMesh (meshOffsets : Nat) (self : SkinnedModel) : Rd SkinnedModel := do
  let mesh ← readU32 (meshOffsets + 4 * 0)
  loadMesh mesh self

/-- The skin phase (lines 174-179). -/
def loadSkinTable (self : SkinnedModel) : Rd SkinnedModel := do
  let skinListOffset ← readU32 (headerBase + L3DHeader.skinListOffset)
  let numSkins ← readU32 (headerBase + L3DHeader.numSkins)
  loadSkins skinListOffset numSkins 0 self

/-- Everything after the magic test (lines 128-179). -/
def loadBody (self : SkinnedModel) : Rd SkinnedModel := do
  let meshListOffset ← readU32 (headerBase + L3DHeader.meshListOffset)
  let numMeshes ← readU32 (headerBase + L3DHeader.numMeshes)
  -- the loop over `m` ends with `break`: its body runs for `m = 0` only
  let self1 ← if 0 < numMeshes then loadFirstMesh meshListOffset self else pure self
  loadSkinTable self1

/-- The reading computation of `LoadFromL3D`: the exception thrown, if any, and
the members of the model when control leaves the function. -/
def loadProgram (self : SkinnedModel) : Rd (Except LoadError Unit × SkinnedModel) := do
  let bad ← badMagic
  if bad then pure (Except.error LoadError.invalidL3DFile, self) else
  let self1 ← loadBody self
  pure (Except.ok (), self1)

/-- What a call of `LoadFromL3D` leaves behind. -/
structure LoadResult where
  outcome : Except LoadError Unit
  model : SkinnedModel
  reads : List Access

/-- The function `SkinnedModel::LoadFromL3D(void* data_, size_t size)`, called on the
model `self`, in a run in which every allocation succeeds (`LoadFromL3DWith` is the
call with an allocator that may fail).  The parameter `size` is not used by the
body. -/
def LoadFromL3D (data : Buffer) (_size : Nat) (self : SkinnedModel) : LoadResult :=
  let r := (loadProgram self).run data
  ⟨r.1.1, r.1.2, r.2⟩

/-! ## `SkinnedModel::Draw` -/

/-- The calls `Draw` makes on GPU resources. -/
inductive DrawEvent where
  | bind (texture : Texture2D)
  | draw (mesh : Mesh)
deriving DecidableEq, Repr

/-- What a call of `Draw` leaves behind.  `faulted` is set when the call
dereferenced a null texture pointer, which ends it. -/
structure DrawResult where
  model : SkinnedModel
  events : List DrawEvent
  faulted : Bool
deriving DecidableEq, Repr

/-- The loop of `Draw` (lines 183-187): `rest` are the elements of `_submeshes`
from index `i` on. -/
def drawLoop : List Mesh → Nat → SkinnedModel → List DrawEvent → DrawResult
  | [], _, self, events => ⟨self, events, false⟩
  | mesh :: rest, i, self, events =>
      let r1 := mapSubscript self.submeshSkinMap i 0
      let r2 := mapSubscript self.textures r1.1 none
      let self1 : SkinnedModel := { self with submeshSkinMap := r1.2, textures := r2.2 }
      match r2.1 with
      | none => ⟨self1, events, true⟩
      | some texture =>
          drawLoop rest (i + 1) self1 (events ++ [DrawEvent.bind texture, DrawEvent.draw mesh])

/-- The function `SkinnedModel::Draw(ShaderProgram* program)`. -/
def Draw (self : SkinnedModel) : DrawResult :=
  drawLoop self.submeshes 0 self []

/-! ## Values and accesses of a run; predicates used by the statements -/

/-- The value a reading computation returns on a buffer. -/
def Rd.val {α : Type} (p : Rd α) (data : Buffer) : α := (p.run data).1

/-- The accesses a reading computation performs on a buffer, in order. -/
def Rd.log {α : Type} (p : Rd α) (data : Buffer) : List Access := (p.run data).2

/-- The buffer starts with the ASCII bytes `L`, `3`, `D`, `0`. -/
def validMagic (data : Buffer) : Prop := readBytes data 0 4 = [76, 51, 68, 48]

instance (data : Buffer) : Decidable (validMagic data) := by
  unfold validMagic; infer_instance

/-- Every access of the list lies inside a buffer of `size` bytes. -/
def allInBounds (reads : List Access) (size : Nat) : Prop := ∀ a ∈ reads, a.inBounds size

instance (reads : List Access) (size : Nat) : Decidable (allInBounds reads size) := by
  unfold allInBounds; infer_instance

/-- The two buffers hold the same bytes wherever the accesses of the list, other
than those whose value is unused, read. -/
def agreeOn (reads : List Access) (d1 d2 : Buffer) : Prop :=
  ∀ a ∈ reads, a.used = true → ∀ i, a.covers i → d1 i % 256 = d2 i % 256

/-! ## Concrete buffers and models used by the witnesses and counterexamples -/

/-- The four bytes of a `uint32_t`, little-endian. -/
def le32 (n : Nat) : List Nat :=
  [n % 256, n / 256 % 256, n / 65536 % 256, n / 16777216 % 256]

/-- A four-byte buffer holding a wrong version tag, `L3D1`. -/
def wrongVersion : Buffer := fun i => [76, 51, 68, 49].getD i 0

/-- The first 198 bytes of a small file with one mesh record (one submesh with one
vertex, `numTriangles` triangles of which the first is stored, skin identifier 7,
no bone) and one skin record (identifier 7), whose 65536 texels follow the listed
bytes.  The header fields `numMeshes`, `meshListOffset`, `numSkins` and
`skinListOffset` and the submesh field `numTriangles` are parameters; the mesh
list is at byte 76 and the skin list at byte 190. -/
def sampleBytes (numMeshes meshListOffset numSkins skinListOffset numTriangles : Nat) :
    List Nat :=
  [76, 51, 68, 48]
  -- header, bytes 4..75
  ++ le32 0 ++ le32 0 ++ le32 numMeshes ++ le32 meshListOffset ++ List.replicate 36 0
  ++ le32 numSkins ++ le32 skinListOffset ++ List.replicate 12 0
  -- mesh list, byte 76
  ++ le32 80
  -- mesh record, bytes 80..99
  ++ [0, 0, 0, 0] ++ le32 1 ++ le32 100 ++ le32 0 ++ le32 0
  -- submesh list, byte 100
  ++ le32 104
  -- submesh record, bytes 104..151
  ++ le32 0 ++ le32 0 ++ le32 7 ++ le32 0 ++ le32 1 ++ le32 152 ++ le32 numTriangles ++ le32 184
  ++ List.replicate 16 0
  -- one vertex, bytes 152..183
  ++ (List.range 32).map (fun i => i + 1)
  -- one triangle, bytes 184..189
  ++ [0, 0, 1, 0, 2, 0]
  -- skin list, byte 190
  ++ le32 194
  -- skin record, byte 194: the identifier; the texels start at byte 198
  ++ le32 7

/-- The minimal file as memory: one mesh, one submesh, one triangle, one skin;
every byte after the listed ones (the texels) is zero. -/
def minimalFile : Buffer := fun i => (sampleBytes 1 76 1 190 1).getD i 0

/-- The length of the minimal file: 198 bytes up to the texels, then 131072 bytes
of texels. -/
def minimalSize : Nat := 131270

/-! ## Draw: what the statements refer to -/

/-- The texture the two lookups of `Draw` reach for the submesh at position `i`:
the submesh-to-skin map gives an identifier, the skin-to-texture map gives that
identifier a texture.  `none` when either entry is absent or the texture is null. -/
def skinTexture (self : SkinnedModel) (i : Nat) : Option Texture2D :=
  match mapFind self.submeshSkinMap i with
  | none => none
  | some k =>
      match mapFind self.textures k with
      | some (some t) => some t
      | _ => none

/-- Each position below the number of mesh resources has a submesh-to-skin entry
whose identifier has a texture. -/
def SkinnedModel.consistent (self : SkinnedModel) : Prop :=
  ∀ i, i < self.submeshes.length → (skinTexture self i).isSome = true

/-- The sequence "bind the texture of the submesh, draw the submesh" over the
meshes `meshes`, the first of which is at position `i`. -/
def bindDrawEvents (self : SkinnedModel) : List Mesh → Nat → List DrawEvent
  | [], _ => []
  | mesh :: rest, i =>
      (match skinTexture self i with
        | some t => [DrawEvent.bind t, DrawEvent.draw mesh]
        | none => []) ++ bindDrawEvents self rest (i + 1)

/-- A small texture. -/
def sampleTexture : Texture2D :=
  ⟨256, 256, GLenum.GL_RGB5_A1, GLenum.GL_BGRA, GLenum.GL_UNSIGNED_SHORT_4_4_4_4_REV, [1, 2]⟩

/-- A small mesh resource with `n` vertices and no index. -/
def sampleMesh (n : Nat) : Mesh :=
  ⟨⟨List.replicate (n * 32) 0, n, 32⟩, ⟨[], 0, GLenum.GL_UNSIGNED_SHORT⟩, vertexDecl⟩

/-- A model with two mesh resources that share the skin identifier 7, which has a
texture. -/
def sharedSkinModel : SkinnedModel :=
  ⟨[sampleMesh 1, sampleMesh 2], [(0, 7), (1, 7)], [(7, some sampleTexture)]⟩

/-- A model with two mesh resources: the first has the skin identifier 7, which
has a texture; the second has the skin identifier 9, which has none. -/
def missingSkinModel : SkinnedModel :=
  ⟨[sampleMesh 1, sampleMesh 2], [(0, 7), (1, 9)], [(7, some sampleTexture)]⟩

/-! ## The file as the loader walks it -/

/-- The field `header->numMeshes`. -/
def numMeshes (data : Buffer) : Nat := u32At data (headerBase + L3DHeader.numMeshes)

/-- The offset of the first mesh record, `meshOffsets[0]`. -/
def firstMesh (data : Buffer) : Nat :=
  u32At data (u32At data (headerBase + L3DHeader.meshListOffset) + 4 * 0)

/-- The field `numSubMeshes` of the first mesh record. -/
def numSubMeshes (data : Buffer) : Nat := u32At data (firstMesh data + L3D_Mesh.numSubMeshes)

/-- The offset of the submesh record at position `sm` of the submesh-offset table of
the first mesh, `submeshOffsets[sm]`. -/
def subMeshAt (data : Buffer) (sm : Nat) : Nat :=
  u32At data (u32At data (firstMesh data + L3D_Mesh.subMeshOffset) + 4 * sm)

/-- The field `header->numSkins`. -/
def numSkins (data : Buffer) : Nat := u32At data (headerBase + L3DHeader.numSkins)

/-- The offset of the skin record at position `s` of the skin-offset table,
`skinOffsets[s]`. -/
def skinAt (data : Buffer) (s : Nat) : Nat :=
  u32At data (u32At data (headerBase + L3DHeader.skinListOffset) + 4 * s)

/-- The mesh resource line 155-158 builds for the submesh record at `subMesh`. -/
def meshOf (data : Buffer) (subMesh : Nat) : Mesh :=
  ⟨⟨readBytes data (u32At data (subMesh + L3D_SubMesh.verticiesOffset))
      (u32At data (subMesh + L3D_SubMesh.numVerticies) * sizeofL3D_Vertex),
     u32At data (subMesh + L3D_SubMesh.numVerticies), sizeofL3D_Vertex⟩,
   ⟨readBytes data (u32At data (subMesh + L3D_SubMesh.trianglesOffset))
      (u32At data (subMesh + L3D_SubMesh.numTriangles) * 3 % 2 ^ 32 * 2),
     u32At data (subMesh + L3D_SubMesh.numTriangles) * 3 % 2 ^ 32, GLenum.GL_UNSIGNED_SHORT⟩,
   vertexDecl⟩

/-- The texture line 178 builds for the skin record at `skin`. -/
def textureOf (data : Buffer) (skin : Nat) : Texture2D :=
  ⟨256, 256, GLenum.GL_RGB5_A1, GLenum.GL_BGRA, GLenum.GL_UNSIGNED_SHORT_4_4_4_4_REV,
    readBytes data (skin + L3D_Skin.data) sizeofSkinData⟩

/-- A file whose only submesh declares 1431655766 triangles, so that three times
`numTriangles` is `2 ^ 32 + 2`: the 190 bytes up to the first triangle and no skin;
every later byte (the other triangles) is zero. -/
def overflowFile : Buffer := fun i => ((sampleBytes 1 76 0 190 1431655766).take 190).getD i 0

/-- A length that holds the whole triangle array `overflowFile` declares:
184 + 6 * 1431655766 bytes. -/
def overflowSize : Nat := 8589934780

/-- The 16-bit values (little-endian) of a byte string. -/
def decodeU16s : List Nat → List Nat
  | b0 :: b1 :: rest => (b0 + 256 * b1) :: decodeU16s rest
  | _ => []

/-- The buffer with the four bytes at `off` overwritten by the `uint32_t` `v`. -/
def pokeU32 (data : Buffer) (off v : Nat) : Buffer :=
  fun i => if off ≤ i ∧ i < off + 4 then (le32 v).getD (i - off) 0 else data i

/-- A file in which the skin-offset table is laid over the header field
`numMeshes` (`skinListOffset` is 12): `numMeshes` is 194, which as `skinOffsets[0]`
is the offset of the skin record. -/
def aliasedFile : Buffer := fun i => (sampleBytes 194 76 1 12 1).getD i 0

/-- The access reads at least one of the `len` bytes at `off`. -/
def Access.overlaps (a : Access) (off len : Nat) : Prop :=
  a.off < off + len ∧ off < a.off + a.len

instance (a : Access) (off len : Nat) : Decidable (a.overlaps off len) := by
  unfold Access.overlaps; infer_instance

/-- The number of accesses of the list that read some of the `len` bytes at `off`. -/
def countOverlaps (reads : List Access) (off len : Nat) : Nat :=
  (reads.filter (fun a => decide (a.overlaps off len))).length

/-- The minimal file with the header field `numMeshes` set to 3. -/
def threeMeshFile : Buffer := fun i => (sampleBytes 3 76 1 190 1).getD i 0

/-- The two bytes of a `uint16_t`, little-endian. -/
def le16 (n : Nat) : List Nat := [n % 256, n / 256 % 256]

/-- The serialisation of a list of 16-bit values. -/
def encodeU16s (vals : List Nat) : List Nat := vals.flatMap le16

/-! ## Record declarations: members and sizes -/

/-- The members of a record, in declaration order, each with its size in bytes.
All members here are 1, 2 or 4 bytes wide or arrays of 4-byte values and are
declared so that no padding arises. -/
abbrev Members := List (String × Nat)

/-- The value of `sizeof` for a record: the sum of the sizes of its members. -/
def Members.size (ms : Members) : Nat := (ms.map Prod.snd).sum

/-- The byte offset of a member in its record: the sizes of the members declared
before it. -/
def Members.offsetOf : Members → String → Option Nat
  | [], _ => none
  | (n, sz) :: rest, name =>
      if n = name then some 0 else (Members.offsetOf rest name).map (fun o => sz + o)

/-- The declaration of `struct L3DHeader` (lines 30-49). -/
def L3DHeader.members : Members :=
  [("modelSize", 4), ("skinOffset", 4), ("numMeshes", 4), ("meshListOffset", 4),
   ("unknown_1", 4), ("unknown_2", 4), ("unknown_3", 4), ("unknown_4", 4), ("unknown_5", 4),
   ("unknown_6", 4), ("unknown_7", 4), ("unknown_8", 4), ("unknown_9", 4),
   ("numSkins", 4), ("skinListOffset", 4), ("unknown_10", 4), ("unknown_11", 4),
   ("pSkinName", 4)]

/-- The declaration of `struct L3D_Mesh` (lines 51-61). -/
def L3D_Mesh.members : Members :=
  [("unknown_1", 1), ("unknown_2", 1), ("unknown_3", 1), ("unknown_4", 1),
   ("numSubMeshes", 4), ("subMeshOffset", 4), ("numBones", 4), ("bonesOffset", 4)]

/-- The declaration of `struct L3D_SubMesh` (lines 63-77). -/
def L3D_SubMesh.members : Members :=
  [("unknown_1", 4), ("unknown_2", 4), ("skinID", 4), ("unknown_3", 4),
   ("numVerticies", 4), ("verticiesOffset", 4), ("numTriangles", 4), ("trianglesOffset", 4),
   ("boneVertLUTSize", 4), ("boneVertLUTOffset", 4), ("numVertexBlends", 4),
   ("vertexBlendsOffset", 4)]

/-- The declaration of `struct L3D_Vertex` (lines 79-83): arrays of `float`. -/
def L3D_Vertex.members : Members :=
  [("position", 3 * 4), ("texCoords", 2 * 4), ("normal", 3 * 4)]

/-- The declaration of `struct L3D_Bone` (lines 100-112): three `int32_t` links,
three rotation axes of three `float` each, and a position of three `float`. -/
def L3D_Bone.members : Members :=
  [("parentBone", 4), ("childBone", 4), ("siblingBone", 4),
   ("rotXAxis", 3 * 4), ("rotYAxis", 3 * 4), ("rotZAxis", 3 * 4), ("position", 3 * 4)]

/-- The access the bone loop makes for bone `i` of a table at `bonesOffset`. -/
def boneAccess (bonesOffset i : Nat) : Access := ⟨bonesOffset + 60 * i, 60, false⟩

/-- The minimal file with the `numBones` field of its mesh record set to 2 and
`bonesOffset` to 198. -/
def twoBoneFile : Buffer :=
  pokeU32 (pokeU32 minimalFile 92 2) 96 198

/-- The accesses of the skin phase once the two header fields are read: for each
of the `numSkins` entries, the entry of the offset table at `skinListOffset`, the
`skinID` of the record it points to, and the texels of that record. -/
def skinAccesses (data : Buffer) : List Access :=
  (List.range (numSkins data)).flatMap (fun s =>
    [⟨u32At data (headerBase + L3DHeader.skinListOffset) + 4 * s, 4, true⟩,
     ⟨skinAt data s, 4, true⟩,
     ⟨skinAt data s + L3D_Skin.data, sizeofSkinData, true⟩])

/-- The accesses of the magic test when it passes. -/
def magicAccesses : List Access := [⟨0, 1, true⟩, ⟨1, 1, true⟩, ⟨2, 1, true⟩, ⟨3, 1, true⟩]

/-- The size in bytes of one component of a vertex attribute of the given type, as
OpenGL defines it: `GL_FLOAT` is a 32-bit float, `GL_UNSIGNED_SHORT` a 16-bit
integer.  The other enumerants are not component types. -/
def componentSize : GLenum → Option Nat
  | GLenum.GL_FLOAT => some 4
  | GLenum.GL_UNSIGNED_SHORT => some 2
  | _ => none

/-- The byte `b` of a vertex record belongs to the attribute: the attribute starts
at `offset` and holds `size` components. -/
def VertexAttrib.coversByte (a : VertexAttrib) (b : Nat) : Prop :=
  a.offset ≤ b ∧ b < a.offset + a.size * (componentSize a.type).getD 0

instance (a : VertexAttrib) (b : Nat) : Decidable (a.coversByte b) := by
  unfold VertexAttrib.coversByte; infer_instance

/-- The bits per channel of a packed 16-bit pixel format, as OpenGL defines them:
the internal format `GL_RGB5_A1` stores 5 bits of red, green and blue and 1 bit of
alpha; the pixel type `GL_UNSIGNED_SHORT_4_4_4_4_REV` packs four channels of 4 bits.
The other enumerants name no packed 16-bit format. -/
def channelBits : GLenum → Option (List Nat)
  | GLenum.GL_RGB5_A1 => some [5, 5, 5, 1]
  | GLenum.GL_UNSIGNED_SHORT_4_4_4_4_REV => some [4, 4, 4, 4]
  | _ => none

/-- The minimal file with the header field `numMeshes` set to 0. -/
def noMeshFile : Buffer := fun i => (sampleBytes 0 76 1 190 1).getD i 0

/-- A model that already holds one mesh resource, with the skin identifier 3. -/
def loadedModel : SkinnedModel :=
  ⟨[sampleMesh 1], [(0, 3)], [(3, some sampleTexture)]⟩

/-! ## Uninterpreted fields -/

/-- The byte offset `i` lies among the `len` bytes at `off`. -/
def inField (i off len : Nat) : Prop := off ≤ i ∧ i < off + len

instance (i off len : Nat) : Decidable (inField i off len) := by
  unfold inField; infer_instance

/-- The byte `i` belongs to a field the loader does not interpret, in the records
of the file it walks: the header members `modelSize`, `skinOffset`, `unknown_1` to
`unknown_11` and `pSkinName`; and, when there is a mesh, the four flag bytes of the
first mesh record, its bone records, and for each of its submesh records the members
`unknown_1`, `unknown_2`, `unknown_3`, `boneVertLUTSize`, `boneVertLUTOffset`,
`numVertexBlends`, `vertexBlendsOffset` and the bone-vertex table (four bytes an
entry) they point to. -/
def uninterpretedByte (data : Buffer) (i : Nat) : Prop :=
  inField i 4 8 ∨ inField i 20 36 ∨ inField i 64 12 ∨
  (0 < numMeshes data ∧
    (inField i (firstMesh data) 4 ∨
     (∃ b, b < u32At data (firstMesh data + L3D_Mesh.numBones) ∧
        inField i (u32At data (firstMesh data + L3D_Mesh.bonesOffset) + sizeofL3D_Bone * b)
          sizeofL3D_Bone) ∨
     (∃ sm, sm < numSubMeshes data ∧
        (inField i (subMeshAt data sm) 8 ∨ inField i (subMeshAt data sm + 12) 4 ∨
         inField i (subMeshAt data sm + 32) 16 ∨
         inField i (u32At data (subMeshAt data sm + 36))
           (4 * u32At data (subMeshAt data sm + 32))))))

instance (data : Buffer) (i : Nat) : Decidable (uninterpretedByte data i) := by
  unfold uninterpretedByte; infer_instance

/-- The minimal file followed by two bone records: `numBones` is 2 and
`bonesOffset` is 131270, the end of the texels. -/
def boneFile : Buffer := pokeU32 (pokeU32 minimalFile 92 2) 96 131270

/-- The length of `boneFile`: the minimal file and two bone records of 60 bytes. -/
def boneFileSize : Nat := 131390

/-- The file `boneFile` with other values in fields the loader does not interpret:
the header members `modelSize` and `pSkinName`, the flag bytes of the mesh record,
the submesh members `unknown_1` and `boneVertLUTOffset`, and the first four bytes
of the second bone record. -/
def variedFile : Buffer :=
  pokeU32 (pokeU32 (pokeU32 (pokeU32 (pokeU32 (pokeU32 boneFile
    4 305419896) 72 2271560481) 80 4294967295) 104 1) 140 77) 131330 4294967294

/-! ## `SkinnedModel::LoadFromL3D` with an allocator that may fail -/

/-- The allocations a call of `LoadFromL3D` requests, by the line that requests
them and the index of the loop iteration. -/
inductive AllocRequest where
  /-- Line 137: `_submeshes.reserve(count)`. -/
  | reserve (count : Nat)
  /-- Line 150: the storage of `VertexDecl decl(3)`. -/
  | vertexDecl (sm : Nat)
  /-- Line 155: `new VertexBuffer`. -/
  | vertexBuffer (sm : Nat)
  /-- Line 156: `new IndexBuffer`. -/
  | indexBuffer (sm : Nat)
  /-- Line 158: `std::make_unique<Mesh>` and the growth of `_submeshes`. -/
  | mesh (sm : Nat)
  /-- Line 159: the node `_submeshSkinMap[sm]` inserts when the key is new. -/
  | skinMapNode (sm : Nat)
  /-- Line 178: `std::make_unique<Texture2D>`. -/
  | texture (s : Nat)
  /-- Line 178: the node `_textures[...]` inserts when the key is new. -/
  | textureNode (s : Nat)
deriving DecidableEq, Repr

/-- The allocator: which requests succeed. -/
abbrev Heap := AllocRequest → Bool

/-- The allocator that never fails. -/
def allSucceed : Heap := fun _ => true

/-- One iteration of the submesh loop (lines 142-159) with the allocator `heap`:
the flag is false when an allocation failed, and the model is then as the exception
leaves it.  Each operand is evaluated before the allocation that uses it is
requested, and the mesh resource is in `_submeshes` before line 159 runs. -/
def loadSubMeshWith (heap : Heap) (subMesh sm : Nat) (self : SkinnedModel) :
    Rd (Bool × SkinnedModel) := do
  let verticiesOffset ← readU32 (subMesh + L3D_SubMesh.verticiesOffset)
  let trianglesOffset ← readU32 (subMesh + L3D_SubMesh.trianglesOffset)
  Rd.touch (subMesh + L3D_SubMesh.boneVertLUTOffset) 4 (pure ())
  if heap (AllocRequest.vertexDecl sm) = false then pure (false, self) else
  let numVerticies ← readU32 (subMesh + L3D_SubMesh.numVerticies)
  if heap (AllocRequest.vertexBuffer sm) = false then pure (false, self) else
  let vertexBuffer ← newVertexBuffer verticiesOffset numVerticies sizeofL3D_Vertex
  let numTriangles ← readU32 (subMesh + L3D_SubMesh.numTriangles)
  if heap (AllocRequest.indexBuffer sm) = false then pure (false, self) else
  let indexBuffer ← newIndexBuffer trianglesOffset (numTriangles * 3 % 2 ^ 32)
  if heap (AllocRequest.mesh sm) = false then pure (false, self) else
  let self1 : SkinnedModel :=
    { self with submeshes := self.submeshes ++ [⟨vertexBuffer, indexBuffer, vertexDecl⟩] }
  let skinID ← readI32 (subMesh + L3D_SubMesh.skinID)
  if (mapFind self1.submeshSkinMap sm).isNone = true ∧ heap (AllocRequest.skinMapNode sm) = false
  then pure (false, self1) else
  pure (true, { self1 with submeshSkinMap := mapAssign self1.submeshSkinMap sm skinID })

/-- The submesh loop (lines 140-160) with the allocator `heap`: it ends at the
first iteration in which an allocation fails. -/
def loadSubMeshesWith (heap : Heap) (submeshOffsets : Nat) :
    Nat → Nat → SkinnedModel → Rd (Bool × SkinnedModel)
  | 0, _, self => pure (true, self)
  | n + 1, sm, self => do
      let subMesh ← readU32 (submeshOffsets + 4 * sm)
      let r ← loadSubMeshWith heap subMesh sm self
      if r.1 = false then pure r else
      loadSubMeshesWith heap submeshOffsets n (sm + 1) r.2

/-- The body of the mesh loop (lines 135-170) with the allocator `heap`.  The call
of `reserve` allocates only when the count exceeds the capacity, which is at least
the number of elements. -/
def loadMeshWith (heap : Heap) (mesh : Nat) (self : SkinnedModel) :
    Rd (Bool × SkinnedModel) := do
  let numSubMeshes ← readU32 (mesh + L3D_Mesh.numSubMeshes)
  if self.submeshes.length < numSubMeshes ∧ heap (AllocRequest.reserve numSubMeshes) = false
  then pure (false, self) else
  let subMeshOffset ← readU32 (mesh + L3D_Mesh.subMeshOffset)
  let r ← loadSubMeshesWith heap subMeshOffset numSubMeshes 0 self
  if r.1 = false then pure r else
  let bonesOffset ← readU32 (mesh + L3D_Mesh.bonesOffset)
  let numBones ← readU32 (mesh + L3D_Mesh.numBones)
  loadBones bonesOffset numBones 0
  pure r

/-- One iteration of the skin loop (lines 177-178), at loop index `s`, with the
allocator `heap`: a failure of either allocation leaves `_textures` as it was. -/
def loadSkinWith (heap : Heap) (skin s : Nat) (self : SkinnedModel) :
    Rd (Bool × SkinnedModel) := do
  let skinID ← readU32 skin
  if heap (AllocRequest.texture s) = false then pure (false, self) else
  let data ← Rd.load (skin + L3D_Skin.data) sizeofSkinData (fun bs => Rd.ret bs)
  let texture : Texture2D :=
    ⟨256, 256, GLenum.GL_RGB5_A1, GLenum.GL_BGRA, GLenum.GL_UNSIGNED_SHORT_4_4_4_4_REV, data⟩
  if (mapFind self.textures (skinKey skinID)).isNone = true
      ∧ heap (AllocRequest.textureNode s) = false
  then pure (false, self) else
  pure (true, { self with textures := mapAssign self.textures (skinKey skinID) (some texture) })

/-- The skin loop (lines 176-179) with the allocator `heap`. -/
def loadSkinsWith (heap : Heap) (skinOffsets : Nat) :
    Nat → Nat → SkinnedModel → Rd (Bool × SkinnedModel)
  | 0, _, self => pure (true, self)
  | n + 1, s, self => do
      let skin ← readU32 (skinOffsets + 4 * s)
      let r ← loadSkinWith heap skin s self
      if r.1 = false then pure r else
      loadSkinsWith heap skinOffsets n (s + 1) r.2

/-- Everything after the magic test (lines 128-179) with the allocator `heap`. -/
def loadBodyWith (heap : Heap) (self : SkinnedModel) : Rd (Bool × SkinnedModel) := do
  let meshListOffset ← readU32 (headerBase + L3DHeader.meshListOffset)
  let numMeshes ← readU32 (headerBase + L3DHeader.numMeshes)
  let r ←
    if 0 < numMeshes then do
      let mesh ← readU32 (meshListOffset + 4 * 0)
      loadMeshWith heap mesh self
    else pure (true, self)
  if r.1 = false then pure r else
  let skinListOffset ← readU32 (headerBase + L3DHeader.skinListOffset)
  let numSkins ← readU32 (headerBase + L3DHeader.numSkins)
  loadSkinsWith heap skinListOffset numSkins 0 r.2

/-- The reading computation of `LoadFromL3D` with the allocator `heap`: the
exception thrown, if any, and the members of the model when control leaves the
function. -/
def loadProgramWith (heap : Heap) (self : SkinnedModel) :
    Rd (Except LoadError Unit × SkinnedModel) := do
  let bad ← badMagic
  if bad then pure (Except.error LoadError.invalidL3DFile, self) else
  let r ← loadBodyWith heap self
  pure (if r.1 = true then Except.ok () else Except.error LoadError.badAlloc, r.2)

/-- The function `SkinnedModel::LoadFromL3D(void* data_, size_t size)`, called on the
model `self` with the allocator `heap`.  The parameter `size` is not used by the
body. -/
def LoadFromL3DWith (heap : Heap) (data : Buffer) (_size : Nat) (self : SkinnedModel) :
    LoadResult :=
  let r := (loadProgramWith heap self).run data
  ⟨r.1.1, r.1.2, r.2⟩

/-- The model `after` keeps what the model `before` holds: the mesh resources of
`before` are the first of `after`, in the same order, and every key of the two maps
of `before` is a key of `after`. -/
def SkinnedModel.keeps (before after : SkinnedModel) : Prop :=
  (∃ added, after.submeshes = before.submeshes ++ added) ∧
  (∀ k, k ∈ mapKeys before.submeshSkinMap → k ∈ mapKeys after.submeshSkinMap) ∧
  (∀ k, k ∈ mapKeys before.textures → k ∈ mapKeys after.textures)

/-- The accesses of one iteration of the submesh loop for the record at `subMesh`
when no allocation fails. -/
def subMeshAccesses (data : Buffer) (subMesh : Nat) : List Access :=
  [⟨subMesh + 20, 4, true⟩, ⟨subMesh + 28, 4, true⟩, ⟨subMesh + 36, 4, false⟩,
   ⟨subMesh + 16, 4, true⟩,
   ⟨u32At data (subMesh + 20), u32At data (subMesh + 16) * 32, true⟩,
   ⟨subMesh + 24, 4, true⟩,
   ⟨u32At data (subMesh + 28), u32At data (subMesh + 24) * 3 % 2 ^ 32 * 2, true⟩,
   ⟨subMesh + 8, 4, true⟩]

/-- The byte `i` belongs to a field the loader interprets, in the records of the
file it walks: the magic; the header members `numMeshes`, `meshListOffset`,
`numSkins` and `skinListOffset`; when there is a mesh, the first entry of the
mesh-offset table, the members `numSubMeshes`, `subMeshOffset`, `numBones` and
`bonesOffset` of the first mesh record and, for each of its submeshes, the entry of
the submesh-offset table, the members `skinID`, `numVerticies`, `verticiesOffset`,
`numTriangles` and `trianglesOffset` of the submesh record, its vertex array (32
bytes a vertex) and its triangle array (6 bytes a triangle); and for each skin, the
entry of the skin-offset table and the skin record (`skinID` and texels). -/
def interpretedByte (data : Buffer) (i : Nat) : Prop :=
  inField i 0 4 ∨ inField i 12 8 ∨ inField i 56 8 ∨
  (0 < numMeshes data ∧
    (inField i (u32At data (headerBase + L3DHeader.meshListOffset)) 4 ∨
     inField i (firstMesh data + 4) 16 ∨
     (∃ sm, sm < numSubMeshes data ∧
        (inField i (u32At data (firstMesh data + L3D_Mesh.subMeshOffset) + 4 * sm) 4 ∨
         inField i (subMeshAt data sm + 8) 4 ∨
         inField i (subMeshAt data sm + 16) 16 ∨
         inField i (u32At data (subMeshAt data sm + 20)) (32 * u32At data (subMeshAt data sm + 16)) ∨
         inField i (u32At data (subMeshAt data sm + 28))
           (6 * u32At data (subMeshAt data sm + 24)))))) ∨
  (∃ s, s < numSkins data ∧
    (inField i (u32At data (headerBase + L3DHeader.skinListOffset) + 4 * s) 4 ∨
     inField i (skinAt data s) (4 + 131072)))

instance (data : Buffer) (i : Nat) : Decidable (interpretedByte data i) := by
  unfold interpretedByte; infer_instance

/-! # Theorems -/

/-! ## Reading computations -/

@[simp] theorem Rd.run_pure {α : Type} (a : α) (d : Buffer) :
    (pure a : Rd α).run d = (a, []) := rfl

@[simp] theorem Rd.run_load {α : Type} (off len : Nat) (k : List Nat → Rd α) (d : Buffer) :
    (Rd.load off len k).run d =
      (((k (readBytes d off len)).run d).1, ⟨off, len, true⟩ :: ((k (readBytes d off len)).run d).2) :=
  rfl

@[simp] theorem Rd.run_touch {α : Type} (off len : Nat) (k : Rd α) (d : Buffer) :
    (Rd.touch off len k).run d = ((k.run d).1, ⟨off, len, false⟩ :: (k.run d).2) := rfl

theorem Rd.run_bind {α β : Type} (m : Rd α) (f : α → Rd β) (d : Buffer) :
    (m >>= f).run d = (((f (m.run d).1).run d).1, (m.run d).2 ++ ((f (m.run d).1).run d).2) := by
  show (Rd.bind m f).run d = _
  induction m with
  | ret a => simp [Rd.bind, Rd.run]
  | load off len k ih => simp [Rd.bind, Rd.run, ih]
  | touch off len k ih => simp [Rd.bind, Rd.run, ih]

@[simp] theorem Rd.val_pure {α : Type} (a : α) (d : Buffer) : (pure a : Rd α).val d = a := rfl

@[simp] theorem Rd.log_pure {α : Type} (a : α) (d : Buffer) : (pure a : Rd α).log d = [] := rfl

@[simp] theorem Rd.val_bind {α β : Type} (m : Rd α) (f : α → Rd β) (d : Buffer) :
    (m >>= f).val d = (f (m.val d)).val d := by
  simp [Rd.val, Rd.run_bind]

@[simp] theorem Rd.log_bind {α β : Type} (m : Rd α) (f : α → Rd β) (d : Buffer) :
    (m >>= f).log d = m.log d ++ (f (m.val d)).log d := by
  simp [Rd.val, Rd.log, Rd.run_bind]

@[simp] theorem Rd.val_touch {α : Type} (off len : Nat) (k : Rd α) (d : Buffer) :
    (Rd.touch off len k).val d = k.val d := rfl

@[simp] theorem Rd.log_touch {α : Type} (off len : Nat) (k : Rd α) (d : Buffer) :
    (Rd.touch off len k).log d = ⟨off, len, false⟩ :: k.log d := rfl

@[simp] theorem val_readU8 (off : Nat) (d : Buffer) : (readU8 off).val d = d off % 256 := by
  simp [readU8, Rd.val, readBytes, leNat, Rd.run]

@[simp] theorem log_readU8 (off : Nat) (d : Buffer) : (readU8 off).log d = [⟨off, 1, true⟩] := rfl

@[simp] theorem val_readU32 (off : Nat) (d : Buffer) : (readU32 off).val d = u32At d off := rfl

@[simp] theorem log_readU32 (off : Nat) (d : Buffer) : (readU32 off).log d = [⟨off, 4, true⟩] := rfl

@[simp] theorem val_readI32 (off : Nat) (d : Buffer) : (readI32 off).val d = i32At d off := rfl

@[simp] theorem log_readI32 (off : Nat) (d : Buffer) : (readI32 off).log d = [⟨off, 4, true⟩] := rfl

/-- A run depends on the buffer only through the bytes its used accesses cover. -/
theorem Rd.run_congr {α : Type} (p : Rd α) (d1 d2 : Buffer) (h : agreeOn (p.run d1).2 d1 d2) :
    p.run d2 = p.run d1 := by
  induction p with
  | ret a => rfl
  | load off len k ih =>
      have hb : readBytes d2 off len = readBytes d1 off len := by
        unfold readBytes
        apply List.map_congr_left
        intro i hi
        have hi2 : i < len := List.mem_range.mp hi
        exact (h ⟨off, len, true⟩ (by simp) rfl (off + i)
          ⟨Nat.le_add_right off i, Nat.add_lt_add_left hi2 off⟩).symm
      simp only [Rd.run_load, hb]
      have := ih (readBytes d1 off len) (by
        intro a ha hu i hc
        exact h a (by simp [ha]) hu i hc)
      rw [this]
  | touch off len k ih =>
      simp only [Rd.run_touch]
      have := ih (by
        intro a ha hu i hc
        exact h a (by simp [ha]) hu i hc)
      rw [this]

theorem readBytes_four (d : Buffer) (off : Nat) :
    readBytes d off 4 = [d off % 256, d (off + 1) % 256, d (off + 2) % 256, d (off + 3) % 256] := by
  simp [readBytes, List.range, List.range.loop]

theorem badMagic_val (d : Buffer) : badMagic.val d = true ↔ ¬ validMagic d := by
  unfold badMagic validMagic
  rw [readBytes_four]
  simp only [Rd.val_bind, val_readU8]
  by_cases h0 : d 0 % 256 = 76 <;> by_cases h1 : d 1 % 256 = 51 <;>
    by_cases h2 : d 2 % 256 = 68 <;> by_cases h3 : d 3 % 256 = 48 <;> simp [h0, h1, h2, h3]

theorem badMagic_log_inBounds (d : Buffer) (size : Nat) (h : 4 ≤ size) :
    allInBounds (badMagic.log d) size := by
  unfold badMagic
  simp only [Rd.log_bind, val_readU8, log_readU8]
  intro a ha
  by_cases h0 : d 0 % 256 = 76 <;> by_cases h1 : d 1 % 256 = 51 <;>
    by_cases h2 : d 2 % 256 = 68 <;> simp [h0, h1, h2] at ha <;>
    (rcases ha with h | h | h | h <;> (try subst h) <;> simp [Access.inBounds] <;> omega)

theorem LoadFromL3D_bad (d : Buffer) (size : Nat) (self : SkinnedModel) (h : ¬ validMagic d) :
    LoadFromL3D d size self = ⟨Except.error LoadError.invalidL3DFile, self, badMagic.log d⟩ := by
  have hb := (badMagic_val d).mpr h
  unfold LoadFromL3D loadProgram
  simp only [Rd.run_bind]
  simp [Rd.val] at hb
  simp [hb, Rd.log]

theorem LoadFromL3D_valid (d : Buffer) (size : Nat) (self : SkinnedModel) (h : validMagic d) :
    LoadFromL3D d size self =
      ⟨Except.ok (), (loadBody self).val d, badMagic.log d ++ (loadBody self).log d⟩ := by
  have hb : badMagic.val d = false := by
    cases hv : badMagic.val d with
    | false => rfl
    | true => exact absurd h ((badMagic_val d).mp hv)
  unfold LoadFromL3D loadProgram
  simp only [Rd.run_bind]
  simp [Rd.val] at hb
  simp [hb, Rd.log, Rd.val, Rd.run_bind]

/-! ## Associative containers -/

theorem mapSubscript_of_find {κ ν : Type} [DecidableEq κ] (m : List (κ × ν)) (k : κ) (dflt v : ν)
    (h : mapFind m k = some v) : mapSubscript m k dflt = (v, m) := by
  simp [mapSubscript, h]

theorem mapSubscript_of_not_find {κ ν : Type} [DecidableEq κ] (m : List (κ × ν)) (k : κ)
    (dflt : ν) (h : mapFind m k = none) : mapSubscript m k dflt = (dflt, m ++ [(k, dflt)]) := by
  simp [mapSubscript, h]

theorem mapFind_append_of_none {κ ν : Type} [DecidableEq κ] (m : List (κ × ν)) (k : κ) (v : ν)
    (h : mapFind m k = none) : mapFind (m ++ [(k, v)]) k = some v := by
  induction m with
  | nil => simp [mapFind]
  | cons p t ih =>
      obtain ⟨k1, v1⟩ := p
      by_cases hk : k1 = k
      · simp [mapFind, hk] at h
      · simp only [mapFind, hk, if_false] at h
        simp [mapFind, hk, ih h]

/-! ## The loop of `Draw` -/

theorem skinTexture_some (self : SkinnedModel) (i : Nat) (t : Texture2D)
    (h : skinTexture self i = some t) :
    ∃ k, mapFind self.submeshSkinMap i = some k ∧ mapFind self.textures k = some (some t) := by
  unfold skinTexture at h
  split at h
  · exact absurd h (by simp)
  · rename_i k hk
    split at h
    · rename_i t2 ht
      exact ⟨k, hk, by simpa [ht] using h⟩
    · exact absurd h (by simp)

theorem drawLoop_consistent (self : SkinnedModel) (rest : List Mesh) :
    ∀ (i : Nat) (events : List DrawEvent),
      (∀ j, j < rest.length → (skinTexture self (i + j)).isSome = true) →
      drawLoop rest i self events = ⟨self, events ++ bindDrawEvents self rest i, false⟩ := by
  induction rest with
  | nil => intro i events _; simp [drawLoop, bindDrawEvents]
  | cons mesh rest ih =>
      intro i events h
      have h0 := h 0 (by simp)
      obtain ⟨t, ht⟩ := Option.isSome_iff_exists.mp h0
      simp only [Nat.add_zero] at ht
      obtain ⟨k, hk, hkt⟩ := skinTexture_some self i t ht
      have hrest : ∀ j, j < rest.length → (skinTexture self (i + 1 + j)).isSome = true := by
        intro j hj
        have := h (j + 1) (by simp; omega)
        rwa [show i + (j + 1) = i + 1 + j by omega] at this
      unfold drawLoop
      simp only [mapSubscript_of_find _ _ _ _ hk, mapSubscript_of_find _ _ _ _ hkt]
      rw [ih (i + 1) _ hrest]
      simp [bindDrawEvents, ht]

theorem bindDrawEvents_length (self : SkinnedModel) (rest : List Mesh) :
    ∀ (i : Nat), (∀ j, j < rest.length → (skinTexture self (i + j)).isSome = true) →
      (bindDrawEvents self rest i).length = 2 * rest.length := by
  induction rest with
  | nil => intro i _; simp [bindDrawEvents]
  | cons mesh rest ih =>
      intro i h
      obtain ⟨t, ht⟩ := Option.isSome_iff_exists.mp (h 0 (by simp))
      simp only [Nat.add_zero] at ht
      have hrest : ∀ j, j < rest.length → (skinTexture self (i + 1 + j)).isSome = true := by
        intro j hj
        have := h (j + 1) (by simp; omega)
        rwa [show i + (j + 1) = i + 1 + j by omega] at this
      simp [bindDrawEvents, ht, ih (i + 1) hrest]
      omega

theorem bindDrawEvents_get (self : SkinnedModel) (rest : List Mesh) :
    ∀ (i : Nat), (∀ j, j < rest.length → (skinTexture self (i + j)).isSome = true) →
      ∀ j mesh, rest[j]? = some mesh →
        ∃ t, skinTexture self (i + j) = some t ∧
          (bindDrawEvents self rest i)[2 * j]? = some (DrawEvent.bind t) ∧
          (bindDrawEvents self rest i)[2 * j + 1]? = some (DrawEvent.draw mesh) := by
  induction rest with
  | nil => intro i _ j mesh hj; simp at hj
  | cons m rest ih =>
      intro i h j mesh hj
      obtain ⟨t, ht⟩ := Option.isSome_iff_exists.mp (h 0 (by simp))
      simp only [Nat.add_zero] at ht
      have hrest : ∀ j, j < rest.length → (skinTexture self (i + 1 + j)).isSome = true := by
        intro j hj
        have := h (j + 1) (by simp; omega)
        rwa [show i + (j + 1) = i + 1 + j by omega] at this
      cases j with
      | zero =>
          simp at hj
          subst hj
          exact ⟨t, ht, by simp [bindDrawEvents, ht], by simp [bindDrawEvents, ht]⟩
      | succ j =>
          simp at hj
          obtain ⟨t2, ht2, hb, hd⟩ := ih (i + 1) hrest j mesh hj
          refine ⟨t2, by rwa [show i + (j + 1) = i + 1 + j by omega], ?_, ?_⟩
          · simp only [bindDrawEvents, ht]
            rw [show 2 * (j + 1) = 2 * j + 2 by omega]
            simpa using hb
          · simp only [bindDrawEvents, ht]
            rw [show 2 * (j + 1) + 1 = (2 * j + 1) + 2 by omega]
            simpa using hd
theorem drawLoop_missing (self : SkinnedModel) (k : Int) (hmiss : mapFind self.textures k = none)
    (rest : List Mesh) :
    ∀ (i p : Nat) (events : List DrawEvent), p < rest.length →
      (∀ j, j < p → (skinTexture self (i + j)).isSome = true) →
      mapFind self.submeshSkinMap (i + p) = some k →
      drawLoop rest i self events =
        ⟨{ self with textures := self.textures ++ [(k, none)] },
          events ++ bindDrawEvents self (rest.take p) i, true⟩ := by
  induction rest with
  | nil => intro i p events hp; simp at hp
  | cons mesh rest ih =>
      intro i p events hp hbefore hk
      cases p with
      | zero =>
          simp only [Nat.add_zero] at hk
          unfold drawLoop
          simp [mapSubscript_of_find _ _ _ _ hk, mapSubscript_of_not_find _ _ _ hmiss,
            bindDrawEvents]
      | succ p =>
          obtain ⟨t, ht⟩ := Option.isSome_iff_exists.mp (hbefore 0 (by omega))
          simp only [Nat.add_zero] at ht
          obtain ⟨k0, hk0, hkt⟩ := skinTexture_some self i t ht
          have hrest : ∀ j, j < p → (skinTexture self (i + 1 + j)).isSome = true := by
            intro j hj
            have := hbefore (j + 1) (by omega)
            rwa [show i + (j + 1) = i + 1 + j by omega] at this
          unfold drawLoop
          simp only [mapSubscript_of_find _ _ _ _ hk0, mapSubscript_of_find _ _ _ _ hkt]
          rw [ih (i + 1) p _ (by simpa using hp) hrest
            (by rwa [show i + 1 + p = i + (p + 1) by omega])]
          simp [bindDrawEvents, ht]

theorem mapFind_mapAssign {κ ν : Type} [DecidableEq κ] (m : List (κ × ν)) (k k2 : κ) (v : ν) :
    mapFind (mapAssign m k v) k2 = if k = k2 then some v else mapFind m k2 := by
  induction m with
  | nil => simp [mapAssign, mapFind]
  | cons p t ih =>
      obtain ⟨k1, v1⟩ := p
      by_cases h1 : k1 = k
      · subst h1
        by_cases h2 : k1 = k2 <;> simp [mapAssign, mapFind, h2]
      · by_cases h2 : k1 = k2
        · subst h2
          have h3 : ¬ k = k1 := fun h => h1 h.symm
          simp [mapAssign, mapFind, h1, h3]
        · simp [mapAssign, mapFind, h1, h2, ih]

theorem mem_mapKeys_mapAssign {κ ν : Type} [DecidableEq κ] (m : List (κ × ν)) (k k2 : κ) (v : ν) :
    k2 ∈ mapKeys (mapAssign m k v) ↔ k2 = k ∨ k2 ∈ mapKeys m := by
  induction m with
  | nil => simp [mapAssign, mapKeys]
  | cons p t ih =>
      obtain ⟨k1, v1⟩ := p
      by_cases h1 : k1 = k
      · subst h1
        simp [mapAssign, mapKeys]
      · simp only [mapAssign, h1, if_false]
        simp only [mapKeys, List.map_cons, List.mem_cons] at ih ⊢
        rw [ih]
        tauto

@[simp] theorem Rd.val_ret {α : Type} (a : α) (d : Buffer) : (Rd.ret a).val d = a := rfl

@[simp] theorem Rd.log_ret {α : Type} (a : α) (d : Buffer) : (Rd.ret a).log d = [] := rfl

@[simp] theorem Rd.val_load {α : Type} (off len : Nat) (k : List Nat → Rd α) (d : Buffer) :
    (Rd.load off len k).val d = (k (readBytes d off len)).val d := rfl

@[simp] theorem Rd.log_load {α : Type} (off len : Nat) (k : List Nat → Rd α) (d : Buffer) :
    (Rd.load off len k).log d = ⟨off, len, true⟩ :: (k (readBytes d off len)).log d := rfl

/-! ## The loops of `LoadFromL3D` -/

theorem val_loadSubMesh (d : Buffer) (subMesh sm : Nat) (self : SkinnedModel) :
    (loadSubMesh subMesh sm self).val d =
      { self with
        submeshes := self.submeshes ++ [meshOf d subMesh]
        submeshSkinMap := mapAssign self.submeshSkinMap sm (i32At d (subMesh + L3D_SubMesh.skinID)) } := by
  simp [loadSubMesh, newVertexBuffer, newIndexBuffer, meshOf]

theorem val_loadSubMeshes (d : Buffer) (tbl : Nat) :
    ∀ (n sm : Nat) (self : SkinnedModel),
      ((loadSubMeshes tbl n sm self).val d).submeshes =
          self.submeshes ++ (List.range n).map (fun j => meshOf d (u32At d (tbl + 4 * (sm + j)))) ∧
      ((loadSubMeshes tbl n sm self).val d).textures = self.textures ∧
      (∀ key, mapFind ((loadSubMeshes tbl n sm self).val d).submeshSkinMap key =
          if sm ≤ key ∧ key < sm + n
            then some (i32At d (u32At d (tbl + 4 * key) + L3D_SubMesh.skinID))
            else mapFind self.submeshSkinMap key) ∧
      (∀ key, key ∈ mapKeys ((loadSubMeshes tbl n sm self).val d).submeshSkinMap ↔
          key ∈ mapKeys self.submeshSkinMap ∨ (sm ≤ key ∧ key < sm + n)) := by
  intro n
  induction n with
  | zero =>
      intro sm self
      refine ⟨by simp [loadSubMeshes], by simp [loadSubMeshes], ?_, by simp [loadSubMeshes]⟩
      intro key
      have : ¬ (sm ≤ key ∧ key < sm) := by omega
      simp [loadSubMeshes, this]
  | succ n ih =>
      intro sm self
      simp only [loadSubMeshes, Rd.val_bind, val_readU32, val_loadSubMesh]
      obtain ⟨h1, h2, h3, h4⟩ := ih (sm + 1)
        { self with
          submeshes := self.submeshes ++ [meshOf d (u32At d (tbl + 4 * sm))]
          submeshSkinMap := mapAssign self.submeshSkinMap sm
            (i32At d (u32At d (tbl + 4 * sm) + L3D_SubMesh.skinID)) }
      refine ⟨?_, h2, ?_, ?_⟩
      · rw [h1, List.range_succ_eq_map]
        simp [Function.comp_def, Nat.add_assoc, Nat.add_comm 1]
      · intro key
        rw [h3 key, mapFind_mapAssign]
        by_cases hk : sm = key
        · subst hk
          simp
        · by_cases hk2 : sm + 1 ≤ key ∧ key < sm + 1 + n
          · have : sm ≤ key ∧ key < sm + (n + 1) := by omega
            simp [hk2, this]
          · have : ¬ (sm ≤ key ∧ key < sm + (n + 1)) := by omega
            simp [hk, hk2, this]
      · intro key
        rw [h4 key, mem_mapKeys_mapAssign]
        constructor
        · rintro ((h | h) | h)
          · right; omega
          · left; exact h
          · right; omega
        · rintro (h | h)
          · left; right; exact h
          · by_cases hk : key = sm
            · left; left; exact hk
            · right; omega

theorem val_loadMesh (d : Buffer) (mesh : Nat) (self : SkinnedModel) :
    (loadMesh mesh self).val d =
      (loadSubMeshes (u32At d (mesh + L3D_Mesh.subMeshOffset))
        (u32At d (mesh + L3D_Mesh.numSubMeshes)) 0 self).val d := by
  simp [loadMesh]

theorem val_loadSkin (d : Buffer) (skin : Nat) (self : SkinnedModel) :
    (loadSkin skin self).val d =
      { self with
        textures := mapAssign self.textures (skinKey (u32At d skin)) (some (textureOf d skin)) } := by
  simp [loadSkin, textureOf]

theorem val_loadSkins (d : Buffer) (tbl : Nat) :
    ∀ (n s : Nat) (self : SkinnedModel),
      ((loadSkins tbl n s self).val d).submeshes = self.submeshes ∧
      ((loadSkins tbl n s self).val d).submeshSkinMap = self.submeshSkinMap ∧
      (∀ key, key ∈ mapKeys ((loadSkins tbl n s self).val d).textures ↔
          key ∈ mapKeys self.textures ∨
            ∃ j, s ≤ j ∧ j < s + n ∧ skinKey (u32At d (u32At d (tbl + 4 * j))) = key) ∧
      (∀ j, s ≤ j → j < s + n →
          (∀ j2, j < j2 → j2 < s + n →
            skinKey (u32At d (u32At d (tbl + 4 * j2))) ≠ skinKey (u32At d (u32At d (tbl + 4 * j)))) →
          mapFind ((loadSkins tbl n s self).val d).textures
              (skinKey (u32At d (u32At d (tbl + 4 * j))))
            = some (some (textureOf d (u32At d (tbl + 4 * j))))) ∧
      (∀ key, (∀ j, s ≤ j → j < s + n → skinKey (u32At d (u32At d (tbl + 4 * j))) ≠ key) →
          mapFind ((loadSkins tbl n s self).val d).textures key = mapFind self.textures key) := by
  intro n
  induction n with
  | zero =>
      intro s self
      refine ⟨by simp [loadSkins], by simp [loadSkins], ?_, ?_, by simp [loadSkins]⟩
      · intro key
        simp only [loadSkins, Rd.val_pure]
        constructor
        · intro h; exact Or.inl h
        · rintro (h | ⟨j, h1, h2, _⟩)
          · exact h
          · omega
      · intro j h1 h2
        omega
  | succ n ih =>
      intro s self
      simp only [loadSkins, Rd.val_bind, val_readU32, val_loadSkin]
      obtain ⟨h1, h2, h3, h4, h5⟩ := ih (s + 1)
        { self with
          textures := mapAssign self.textures (skinKey (u32At d (u32At d (tbl + 4 * s))))
            (some (textureOf d (u32At d (tbl + 4 * s)))) }
      refine ⟨h1, h2, ?_, ?_, ?_⟩
      · intro key
        rw [h3 key, mem_mapKeys_mapAssign]
        constructor
        · rintro ((h | h) | ⟨j, hj1, hj2, hj3⟩)
          · exact Or.inr ⟨s, Nat.le_refl s, by omega, h.symm⟩
          · exact Or.inl h
          · exact Or.inr ⟨j, by omega, by omega, hj3⟩
        · rintro (h | ⟨j, hj1, hj2, hj3⟩)
          · exact Or.inl (Or.inr h)
          · by_cases hjs : j = s
            · subst hjs
              exact Or.inl (Or.inl hj3.symm)
            · exact Or.inr ⟨j, by omega, by omega, hj3⟩
      · intro j hj1 hj2 hlast
        by_cases hjs : j = s
        · subst hjs
          rw [h5 _ (fun j2 hj3 hj4 => hlast j2 (by omega) (by omega))]
          simp [mapFind_mapAssign]
        · exact h4 j (by omega) (by omega) (fun j2 hj3 hj4 => hlast j2 hj3 (by omega))
      · intro key hkey
        rw [h5 key (fun j hj1 hj2 => hkey j (by omega) (by omega)), mapFind_mapAssign]
        simp [hkey s (Nat.le_refl s) (by omega)]

theorem val_loadBody (d : Buffer) (self : SkinnedModel) :
    (loadBody self).val d =
      (loadSkins (u32At d (headerBase + L3DHeader.skinListOffset)) (numSkins d) 0
        (if 0 < numMeshes d
          then (loadSubMeshes (u32At d (firstMesh d + L3D_Mesh.subMeshOffset)) (numSubMeshes d)
            0 self).val d
          else self)).val d := by
  unfold loadBody loadSkinTable loadFirstMesh
  simp only [Rd.val_bind, val_readU32]
  by_cases h : 0 < numMeshes d
  · have h2 : 0 < u32At d (headerBase + L3DHeader.numMeshes) := h
    simp [h, h2, val_loadMesh, numSkins, numSubMeshes, firstMesh]
  · have h2 : ¬ 0 < u32At d (headerBase + L3DHeader.numMeshes) := h
    simp [h, h2, numSkins]

theorem leNat_lt (bs : List Nat) (h : ∀ b ∈ bs, b < 256) : leNat bs < 256 ^ bs.length := by
  induction bs with
  | nil => simp [leNat]
  | cons b bs ih =>
      have hb := h b (by simp)
      have := ih (fun x hx => h x (by simp [hx]))
      simp only [leNat, List.length_cons, pow_succ]
      omega

theorem u32At_lt (d : Buffer) (off : Nat) : u32At d off < 2 ^ 32 := by
  have h := leNat_lt (readBytes d off 4) (by
    intro b hb
    simp only [readBytes, List.mem_map] at hb
    obtain ⟨i, _, rfl⟩ := hb
    exact Nat.mod_lt _ (by norm_num))
  simpa [readBytes, u32At] using h

theorem skinKey_inj (a b : Nat) (ha : a < 2 ^ 32) (hb : b < 2 ^ 32) (h : skinKey a = skinKey b) :
    a = b := by
  unfold skinKey toInt32 at h
  rw [Nat.mod_eq_of_lt ha, Nat.mod_eq_of_lt hb] at h
  split at h <;> split at h <;> omega

/-- The model a successful load leaves, in terms of the loops. -/
theorem LoadFromL3D_model (d : Buffer) (size : Nat) (self : SkinnedModel) (h : validMagic d) :
    (LoadFromL3D d size self).model =
      (loadSkins (u32At d (headerBase + L3DHeader.skinListOffset)) (numSkins d) 0
        (if 0 < numMeshes d
          then (loadSubMeshes (u32At d (firstMesh d + L3D_Mesh.subMeshOffset)) (numSubMeshes d)
            0 self).val d
          else self)).val d := by
  rw [LoadFromL3D_valid d size self h, val_loadBody]

/-- The mesh resources a successful load of a file with at least one mesh appends:
one per entry of the submesh-offset table of the first mesh, in table order. -/
theorem LoadFromL3D_submeshes (d : Buffer) (size : Nat) (self : SkinnedModel)
    (h : validMagic d) (hmesh : 1 ≤ numMeshes d) :
    (LoadFromL3D d size self).model.submeshes =
      self.submeshes ++ (List.range (numSubMeshes d)).map (fun sm => meshOf d (subMeshAt d sm)) := by
  have hm : 0 < numMeshes d := hmesh
  rw [LoadFromL3D_model d size self h]
  simp only [hm, if_true]
  rw [(val_loadSkins d _ _ 0 _).1, (val_loadSubMeshes d _ _ 0 self).1]
  simp [subMeshAt]

/-! ## Overwriting a field -/

theorem pokeU32_outside (d : Buffer) (off v i : Nat) (h : ¬ (off ≤ i ∧ i < off + 4)) :
    pokeU32 d off v i = d i := by
  simp [pokeU32, h]

theorem readBytes_congr (d1 d2 : Buffer) (off len : Nat)
    (h : ∀ i, off ≤ i → i < off + len → d1 i % 256 = d2 i % 256) :
    readBytes d1 off len = readBytes d2 off len := by
  unfold readBytes
  apply List.map_congr_left
  intro i hi
  have hi2 : i < len := List.mem_range.mp hi
  exact h (off + i) (Nat.le_add_right off i) (Nat.add_lt_add_left hi2 off)

theorem u32At_pokeU32_one (d : Buffer) (off : Nat) : u32At (pokeU32 d off 1) off = 1 := by
  simp [u32At, readBytes_four, pokeU32, le32, leNat]

theorem agreeOn_pokeU32 (reads : List Access) (d : Buffer) (off v : Nat)
    (h : ∀ a ∈ reads, ¬ a.overlaps off 4) : agreeOn reads d (pokeU32 d off v) := by
  intro a ha _ i hc
  have hno := h a ha
  rw [pokeU32_outside]
  intro hi
  exact hno ⟨by unfold Access.covers at hc; omega, by unfold Access.covers at hc; omega⟩

theorem countOverlaps_zero (reads : List Access) (off len : Nat)
    (h : countOverlaps reads off len = 0) : ∀ a ∈ reads, ¬ a.overlaps off len := by
  intro a ha ho
  unfold countOverlaps at h
  have hmem : a ∈ reads.filter (fun a => decide (a.overlaps off len)) :=
    List.mem_filter.mpr ⟨ha, by simpa using ho⟩
  rw [List.length_eq_zero] at h
  rw [h] at hmem
  exact absurd hmem (by simp)

theorem countOverlaps_append (r1 r2 : List Access) (off len : Nat) :
    countOverlaps (r1 ++ r2) off len = countOverlaps r1 off len + countOverlaps r2 off len := by
  simp [countOverlaps]

/-- A call depends on the buffer only through the bytes its used accesses cover. -/
theorem LoadFromL3D_congr (d1 d2 : Buffer) (size : Nat) (self : SkinnedModel)
    (h : agreeOn (LoadFromL3D d1 size self).reads d1 d2) :
    LoadFromL3D d2 size self = LoadFromL3D d1 size self := by
  unfold LoadFromL3D
  rw [Rd.run_congr (loadProgram self) d1 d2 h]

theorem log_loadBody (d : Buffer) (self : SkinnedModel) (h : 0 < numMeshes d) :
    (loadBody self).log d =
      [⟨16, 4, true⟩, ⟨12, 4, true⟩]
      ++ (loadFirstMesh (u32At d 16) self).log d
      ++ (loadSkinTable ((loadFirstMesh (u32At d 16) self).val d)).log d := by
  have h2 : 0 < u32At d (headerBase + L3DHeader.numMeshes) := h
  unfold loadBody
  simp only [Rd.log_bind, Rd.val_bind, val_readU32, log_readU32, h2, if_true]
  simp [headerBase, L3DHeader.meshListOffset, L3DHeader.numMeshes]

theorem val_loadBody_phases (d : Buffer) (self : SkinnedModel) (h : 0 < numMeshes d) :
    (loadBody self).val d =
      (loadSkinTable ((loadFirstMesh (u32At d 16) self).val d)).val d := by
  have h2 : 0 < u32At d (headerBase + L3DHeader.numMeshes) := h
  unfold loadBody
  simp only [Rd.val_bind, val_readU32, h2, if_true]
  simp [headerBase, L3DHeader.meshListOffset]

theorem Rd.val_congr {α : Type} (p : Rd α) (d1 d2 : Buffer) (h : agreeOn (p.log d1) d1 d2) :
    p.val d2 = p.val d1 := by
  unfold Rd.val
  rw [Rd.run_congr p d1 d2 h]

theorem Rd.log_congr {α : Type} (p : Rd α) (d1 d2 : Buffer) (h : agreeOn (p.log d1) d1 d2) :
    p.log d2 = p.log d1 := by
  unfold Rd.log
  rw [Rd.run_congr p d1 d2 h]

/-! ## What a load builds -/

/-- What the mesh resources of a load into an empty model hold, whatever the
counts: the index count is the 32-bit product `numTriangles * 3`, which is
`3 * numTriangles` as long as that is below `2 ^ 32`. -/
theorem LoadFromL3D_mesh_counts (d : Buffer) (size : Nat)
    (h : validMagic d) (hmesh : 1 ≤ numMeshes d) :
    (LoadFromL3D d size SkinnedModel.empty).model.submeshes.length = numSubMeshes d ∧
    ∀ i, i < numSubMeshes d →
      ∃ m, (LoadFromL3D d size SkinnedModel.empty).model.submeshes[i]? = some m ∧
        m = meshOf d (subMeshAt d i) ∧
        m.vertexBuffer.vertexCount = u32At d (subMeshAt d i + 16) ∧
        m.vertexBuffer.strideBytes = 32 ∧
        m.vertexBuffer.data
          = readBytes d (u32At d (subMeshAt d i + 20)) (u32At d (subMeshAt d i + 16) * 32) ∧
        m.indexBuffer.indicesCount = u32At d (subMeshAt d i + 24) * 3 % 2 ^ 32 ∧
        (u32At d (subMeshAt d i + 24) * 3 < 2 ^ 32 →
          m.indexBuffer.indicesCount = 3 * u32At d (subMeshAt d i + 24) ∧
          m.indexBuffer.data
            = readBytes d (u32At d (subMeshAt d i + 28)) (6 * u32At d (subMeshAt d i + 24))) := by
  rw [LoadFromL3D_submeshes d size SkinnedModel.empty h hmesh]
  refine ⟨by simp [SkinnedModel.empty], ?_⟩
  intro i hi
  refine ⟨meshOf d (subMeshAt d i), by simp [SkinnedModel.empty, hi], rfl, rfl, rfl, rfl, rfl, ?_⟩
  intro hlt
  have e : u32At d (subMeshAt d i + L3D_SubMesh.numTriangles) * 3 % 2 ^ 32
      = 3 * u32At d (subMeshAt d i + 24) := by
    show u32At d (subMeshAt d i + 24) * 3 % 2 ^ 32 = _
    rw [Nat.mod_eq_of_lt hlt, Nat.mul_comm]
  refine ⟨e, ?_⟩
  show readBytes d _ (u32At d (subMeshAt d i + L3D_SubMesh.numTriangles) * 3 % 2 ^ 32 * 2) = _
  rw [e]
  congr 1
  omega

theorem decodeU16s_encodeU16s (vals : List Nat) (h : ∀ v ∈ vals, v < 65536) :
    decodeU16s (encodeU16s vals) = vals := by
  induction vals with
  | nil => rfl
  | cons v vs ih =>
      have hv := h v (by simp)
      have := ih (fun x hx => h x (by simp [hx]))
      simp only [encodeU16s, List.flatMap_cons, le16] at this ⊢
      simp only [List.cons_append, List.nil_append, decodeU16s, this]
      congr 1
      omega

/-! ## The record declarations and the offsets the loader uses -/

theorem record_sizes :
    L3DHeader.members.length = 18 ∧ L3DHeader.members.size = 72 ∧
    L3D_Mesh.members.size = 20 ∧ L3D_SubMesh.members.size = 48 ∧
    L3D_Vertex.members.size = sizeofL3D_Vertex ∧ L3D_Bone.members.size = sizeofL3D_Bone := by
  decide

theorem member_offsets :
    L3DHeader.members.offsetOf "numMeshes" = some L3DHeader.numMeshes ∧
    L3DHeader.members.offsetOf "meshListOffset" = some L3DHeader.meshListOffset ∧
    L3DHeader.members.offsetOf "numSkins" = some L3DHeader.numSkins ∧
    L3DHeader.members.offsetOf "skinListOffset" = some L3DHeader.skinListOffset ∧
    L3D_Mesh.members.offsetOf "numSubMeshes" = some L3D_Mesh.numSubMeshes ∧
    L3D_Mesh.members.offsetOf "subMeshOffset" = some L3D_Mesh.subMeshOffset ∧
    L3D_Mesh.members.offsetOf "numBones" = some L3D_Mesh.numBones ∧
    L3D_Mesh.members.offsetOf "bonesOffset" = some L3D_Mesh.bonesOffset ∧
    L3D_SubMesh.members.offsetOf "skinID" = some L3D_SubMesh.skinID ∧
    L3D_SubMesh.members.offsetOf "numVerticies" = some L3D_SubMesh.numVerticies ∧
    L3D_SubMesh.members.offsetOf "verticiesOffset" = some L3D_SubMesh.verticiesOffset ∧
    L3D_SubMesh.members.offsetOf "numTriangles" = some L3D_SubMesh.numTriangles ∧
    L3D_SubMesh.members.offsetOf "trianglesOffset" = some L3D_SubMesh.trianglesOffset ∧
    L3D_SubMesh.members.offsetOf "boneVertLUTOffset" = some L3D_SubMesh.boneVertLUTOffset := by
  decide

/-! ## The accesses of the loops -/

theorem log_loadBones (d : Buffer) (bones : Nat) :
    ∀ (n b : Nat), (loadBones bones n b).log d
      = (List.range n).map (fun i => boneAccess bones (b + i)) := by
  intro n
  induction n with
  | zero => intro b; simp [loadBones]
  | succ n ih =>
      intro b
      simp only [loadBones, Rd.log_touch, ih (b + 1)]
      rw [List.range_succ_eq_map]
      simp [boneAccess, sizeofL3D_Bone, Function.comp_def, Nat.add_assoc, Nat.add_comm 1]

theorem log_loadMesh (d : Buffer) (mesh : Nat) (self : SkinnedModel) :
    (loadMesh mesh self).log d =
      [⟨mesh + 4, 4, true⟩, ⟨mesh + 8, 4, true⟩]
      ++ (loadSubMeshes (u32At d (mesh + 8)) (u32At d (mesh + 4)) 0 self).log d
      ++ [⟨mesh + 16, 4, true⟩, ⟨mesh + 12, 4, true⟩]
      ++ (List.range (u32At d (mesh + 12))).map (fun i => boneAccess (u32At d (mesh + 16)) i) := by
  unfold loadMesh
  simp only [Rd.log_bind, Rd.val_bind, val_readU32, log_readU32, log_loadBones, Rd.log_pure]
  simp [L3D_Mesh.numSubMeshes, L3D_Mesh.subMeshOffset, L3D_Mesh.numBones, L3D_Mesh.bonesOffset]
theorem log_loadSkin (d : Buffer) (skin : Nat) (self : SkinnedModel) :
    (loadSkin skin self).log d
      = [⟨skin, 4, true⟩, ⟨skin + L3D_Skin.data, sizeofSkinData, true⟩] := by
  simp [loadSkin]

theorem log_loadSkins (d : Buffer) (tbl : Nat) :
    ∀ (n s : Nat) (self : SkinnedModel), (loadSkins tbl n s self).log d
      = (List.range n).flatMap (fun j =>
          [⟨tbl + 4 * (s + j), 4, true⟩,
           ⟨u32At d (tbl + 4 * (s + j)), 4, true⟩,
           ⟨u32At d (tbl + 4 * (s + j)) + L3D_Skin.data, sizeofSkinData, true⟩]) := by
  intro n
  induction n with
  | zero => intro s self; simp [loadSkins]
  | succ n ih =>
      intro s self
      simp only [loadSkins, Rd.log_bind, Rd.val_bind, val_readU32, log_readU32, log_loadSkin,
        ih (s + 1)]
      rw [List.range_succ_eq_map]
      simp [List.flatMap_map, Function.comp_def, Nat.add_assoc, Nat.add_comm 1]

theorem log_loadSkinTable (d : Buffer) (self : SkinnedModel) :
    (loadSkinTable self).log d = [⟨60, 4, true⟩, ⟨56, 4, true⟩] ++ skinAccesses d := by
  unfold loadSkinTable
  simp only [Rd.log_bind, Rd.val_bind, val_readU32, log_readU32, log_loadSkins]
  simp [skinAccesses, skinAt, numSkins, headerBase, L3DHeader.skinListOffset,
    L3DHeader.numSkins]

theorem log_badMagic_valid (d : Buffer) (h : validMagic d) : badMagic.log d = magicAccesses := by
  unfold validMagic at h
  rw [readBytes_four] at h
  simp only [List.cons.injEq, and_true] at h
  obtain ⟨h0, h1, h2, h3⟩ := h
  unfold badMagic
  simp [h0, h1, h2, magicAccesses]

theorem log_loadBody_all (d : Buffer) (self : SkinnedModel) :
    (loadBody self).log d =
      [⟨16, 4, true⟩, ⟨12, 4, true⟩]
      ++ (if 0 < numMeshes d then (loadFirstMesh (u32At d 16) self).log d else [])
      ++ ([⟨60, 4, true⟩, ⟨56, 4, true⟩] ++ skinAccesses d) := by
  unfold loadBody
  by_cases h : 0 < numMeshes d
  · have h2 : 0 < u32At d 12 := h
    simp [h, h2, headerBase, L3DHeader.meshListOffset, L3DHeader.numMeshes, log_loadSkinTable]
  · have h2 : ¬ 0 < u32At d 12 := h
    simp [h, h2, headerBase, L3DHeader.meshListOffset, L3DHeader.numMeshes, log_loadSkinTable]

/-- The accesses of a successful call, phase by phase. -/
theorem LoadFromL3D_reads (d : Buffer) (size : Nat) (self : SkinnedModel) (h : validMagic d) :
    (LoadFromL3D d size self).reads =
      magicAccesses ++ [⟨16, 4, true⟩, ⟨12, 4, true⟩]
      ++ (if 0 < numMeshes d then (loadFirstMesh (u32At d 16) self).log d else [])
      ++ ([⟨60, 4, true⟩, ⟨56, 4, true⟩] ++ skinAccesses d) := by
  rw [LoadFromL3D_valid d size self h, log_loadBody_all, log_badMagic_valid d h]
  simp

theorem log_loadFirstMesh (d : Buffer) (meshOffsets : Nat) (self : SkinnedModel) :
    (loadFirstMesh meshOffsets self).log d =
      ⟨meshOffsets, 4, true⟩ :: (loadMesh (u32At d meshOffsets) self).log d := by
  simp [loadFirstMesh]

/-! ## The textures a load creates -/

theorem readBytes_length (d : Buffer) (off len : Nat) : (readBytes d off len).length = len := by
  simp [readBytes]

theorem loadSkins_textures_origin (d : Buffer) (tbl : Nat) :
    ∀ (n s : Nat) (self : SkinnedModel) (key : Int),
      mapFind ((loadSkins tbl n s self).val d).textures key = mapFind self.textures key ∨
      ∃ j, s ≤ j ∧ j < s + n ∧
        mapFind ((loadSkins tbl n s self).val d).textures key
          = some (some (textureOf d (u32At d (tbl + 4 * j)))) := by
  intro n
  induction n with
  | zero => intro s self key; left; simp [loadSkins]
  | succ n ih =>
      intro s self key
      simp only [loadSkins, Rd.val_bind, val_readU32, val_loadSkin]
      rcases ih (s + 1)
        { self with
          textures := mapAssign self.textures (skinKey (u32At d (u32At d (tbl + 4 * s))))
            (some (textureOf d (u32At d (tbl + 4 * s)))) } key with h | ⟨j, h1, h2, h3⟩
      · rw [h, mapFind_mapAssign]
        by_cases hk : skinKey (u32At d (u32At d (tbl + 4 * s))) = key
        · right
          exact ⟨s, Nat.le_refl s, by omega, by simp [hk]⟩
        · left
          simp [hk]
      · right
        exact ⟨j, by omega, by omega, h3⟩

theorem loadSkins_textures_kept (d : Buffer) (tbl : Nat) :
    ∀ (n s : Nat) (self : SkinnedModel) (key : Int),
      (∃ t, mapFind self.textures key = some (some t)) →
      ∃ t, mapFind ((loadSkins tbl n s self).val d).textures key = some (some t) := by
  intro n s self key h
  rcases loadSkins_textures_origin d tbl n s self key with h1 | ⟨j, _, _, h3⟩
  · rw [h1]; exact h
  · exact ⟨_, h3⟩

theorem loadSkins_textures_present (d : Buffer) (tbl : Nat) :
    ∀ (n s : Nat) (self : SkinnedModel) (j : Nat), s ≤ j → j < s + n →
      ∃ t, mapFind ((loadSkins tbl n s self).val d).textures
        (skinKey (u32At d (u32At d (tbl + 4 * j)))) = some (some t) := by
  intro n
  induction n with
  | zero => intro s self j h1 h2; omega
  | succ n ih =>
      intro s self j h1 h2
      simp only [loadSkins, Rd.val_bind, val_readU32, val_loadSkin]
      by_cases hj : j = s
      · subst hj
        apply loadSkins_textures_kept
        exact ⟨textureOf d (u32At d (tbl + 4 * j)), by simp [mapFind_mapAssign]⟩
      · exact ih (s + 1) _ j (by omega) (by omega)

/-- The textures of the model after a successful call, in terms of the skin loop
run on the model the mesh phase leaves. -/
theorem LoadFromL3D_textures (d : Buffer) (size : Nat) (self : SkinnedModel)
    (h : validMagic d) :
    ∃ self1 : SkinnedModel, self1.textures = self.textures ∧
      (LoadFromL3D d size self).model =
        (loadSkins (u32At d (headerBase + L3DHeader.skinListOffset)) (numSkins d) 0 self1).val d := by
  rw [LoadFromL3D_model d size self h]
  refine ⟨_, ?_, rfl⟩
  split
  · exact (val_loadSubMeshes d _ _ 0 self).2.1
  · rfl

/-! ## Keys and lookups -/

theorem mapFind_isSome_iff_mem_mapKeys {κ ν : Type} [DecidableEq κ] (m : List (κ × ν)) (k : κ) :
    (mapFind m k).isSome = true ↔ k ∈ mapKeys m := by
  induction m with
  | nil => simp [mapFind, mapKeys]
  | cons p t ih =>
      obtain ⟨k1, v1⟩ := p
      by_cases h : k1 = k
      · subst h
        simp [mapFind, mapKeys]
      · have h2 : ¬ k = k1 := fun e => h e.symm
        simp only [mapFind, h, if_false, ih]
        simp [mapKeys, h2]

theorem pokeU32_differs (d : Buffer) (off v i : Nat) (h : pokeU32 d off v i ≠ d i) :
    inField i off 4 := by
  by_contra hn
  exact h (pokeU32_outside d off v i hn)

theorem pokeU32_differs_or (d0 d : Buffer) (off v i : Nat) (h : pokeU32 d off v i ≠ d0 i) :
    inField i off 4 ∨ d i ≠ d0 i := by
  by_cases hi : inField i off 4
  · exact Or.inl hi
  · right
    rwa [pokeU32_outside d off v i hi] at h

theorem variedFile_differs (i : Nat) (h : boneFile i % 256 ≠ variedFile i % 256) :
    inField i 4 4 ∨ inField i 72 4 ∨ inField i 80 4 ∨ inField i 104 4 ∨ inField i 140 4 ∨
      inField i 131330 4 := by
  have h0 : variedFile i ≠ boneFile i := by
    intro e
    exact h (by rw [e])
  unfold variedFile at h0
  rcases pokeU32_differs_or _ _ _ _ _ h0 with h1 | h1
  · exact Or.inr (Or.inr (Or.inr (Or.inr (Or.inr h1))))
  rcases pokeU32_differs_or _ _ _ _ _ h1 with h2 | h2
  · exact Or.inr (Or.inr (Or.inr (Or.inr (Or.inl h2))))
  rcases pokeU32_differs_or _ _ _ _ _ h2 with h3 | h3
  · exact Or.inr (Or.inr (Or.inr (Or.inl h3)))
  rcases pokeU32_differs_or _ _ _ _ _ h3 with h4 | h4
  · exact Or.inr (Or.inr (Or.inl h4))
  rcases pokeU32_differs_or _ _ _ _ _ h4 with h5 | h5
  · exact Or.inr (Or.inl h5)
  · exact Or.inl (pokeU32_differs _ _ _ _ h5)

/-! ## The loader with an allocator -/

@[simp] theorem Rd.val_ite {α : Type} (c : Prop) [Decidable c] (p q : Rd α) (d : Buffer) :
    (if c then p else q).val d = if c then p.val d else q.val d := by
  split <;> rfl

@[simp] theorem Rd.log_ite {α : Type} (c : Prop) [Decidable c] (p q : Rd α) (d : Buffer) :
    (if c then p else q).log d = if c then p.log d else q.log d := by
  split <;> rfl

theorem loadSubMeshWith_allSucceed (heap : Heap) (h : ∀ r, heap r = true) (d : Buffer)
    (subMesh sm : Nat) (self : SkinnedModel) :
    (loadSubMeshWith heap subMesh sm self).val d = (true, (loadSubMesh subMesh sm self).val d) ∧
    (loadSubMeshWith heap subMesh sm self).log d = (loadSubMesh subMesh sm self).log d := by
  simp [loadSubMeshWith, loadSubMesh, h, newVertexBuffer, newIndexBuffer]

theorem loadSubMeshesWith_allSucceed (heap : Heap) (h : ∀ r, heap r = true) (d : Buffer)
    (tbl : Nat) :
    ∀ (n sm : Nat) (self : SkinnedModel),
      (loadSubMeshesWith heap tbl n sm self).val d
        = (true, (loadSubMeshes tbl n sm self).val d) ∧
      (loadSubMeshesWith heap tbl n sm self).log d = (loadSubMeshes tbl n sm self).log d := by
  intro n
  induction n with
  | zero => intro sm self; simp [loadSubMeshesWith, loadSubMeshes]
  | succ n ih =>
      intro sm self
      simp only [loadSubMeshesWith, loadSubMeshes, Rd.val_bind, Rd.log_bind, val_readU32,
        log_readU32, (loadSubMeshWith_allSucceed heap h d _ sm self).1,
        (loadSubMeshWith_allSucceed heap h d _ sm self).2, Rd.val_ite, Rd.log_ite]
      simp [(ih (sm + 1) _).1, (ih (sm + 1) _).2]

theorem loadMeshWith_allSucceed (heap : Heap) (h : ∀ r, heap r = true) (d : Buffer)
    (mesh : Nat) (self : SkinnedModel) :
    (loadMeshWith heap mesh self).val d = (true, (loadMesh mesh self).val d) ∧
    (loadMeshWith heap mesh self).log d = (loadMesh mesh self).log d := by
  simp only [loadMeshWith, loadMesh, Rd.val_bind, Rd.log_bind, val_readU32, log_readU32,
    Rd.val_ite, Rd.log_ite, h, (loadSubMeshesWith_allSucceed heap h d _ _ 0 self).1,
    (loadSubMeshesWith_allSucceed heap h d _ _ 0 self).2]
  simp

theorem loadSkinWith_allSucceed (heap : Heap) (h : ∀ r, heap r = true) (d : Buffer)
    (skin s : Nat) (self : SkinnedModel) :
    (loadSkinWith heap skin s self).val d = (true, (loadSkin skin self).val d) ∧
    (loadSkinWith heap skin s self).log d = (loadSkin skin self).log d := by
  simp [loadSkinWith, loadSkin, h]

theorem loadSkinsWith_allSucceed (heap : Heap) (h : ∀ r, heap r = true) (d : Buffer)
    (tbl : Nat) :
    ∀ (n s : Nat) (self : SkinnedModel),
      (loadSkinsWith heap tbl n s self).val d = (true, (loadSkins tbl n s self).val d) ∧
      (loadSkinsWith heap tbl n s self).log d = (loadSkins tbl n s self).log d := by
  intro n
  induction n with
  | zero => intro s self; simp [loadSkinsWith, loadSkins]
  | succ n ih =>
      intro s self
      have e := loadSkinWith_allSucceed heap h d (u32At d (tbl + 4 * s)) s self
      have e2 := ih (s + 1) ((loadSkin (u32At d (tbl + 4 * s)) self).val d)
      have hif : ∀ (β : Type) (x : SkinnedModel) (a b : β),
          (if ((true, x) : Bool × SkinnedModel).1 = false then a else b) = b := by
        intro β x a b
        rfl
      constructor
      · simp only [loadSkinsWith, loadSkins]
        simp only [Rd.val_bind, val_readU32]
        rw [e.1, hif, e2.1]
      · simp only [loadSkinsWith, loadSkins]
        simp only [Rd.val_bind, Rd.log_bind, val_readU32, log_readU32]
        rw [e.1, e.2, hif, e2.2]

theorem loadBodyWith_allSucceed (heap : Heap) (h : ∀ r, heap r = true) (d : Buffer)
    (self : SkinnedModel) :
    (loadBodyWith heap self).val d = (true, (loadBody self).val d) ∧
    (loadBodyWith heap self).log d = (loadBody self).log d := by
  unfold loadBodyWith loadBody loadFirstMesh loadSkinTable
  by_cases hm : 0 < u32At d (headerBase + L3DHeader.numMeshes)
  · simp [hm, (loadMeshWith_allSucceed heap h d _ self).1,
      (loadMeshWith_allSucceed heap h d _ self).2,
      (loadSkinsWith_allSucceed heap h d _ _ 0 _).1, (loadSkinsWith_allSucceed heap h d _ _ 0 _).2]
  · simp [hm, (loadSkinsWith_allSucceed heap h d _ _ 0 _).1,
      (loadSkinsWith_allSucceed heap h d _ _ 0 _).2]

/-- With an allocator that never fails, the call is `LoadFromL3D`. -/
theorem LoadFromL3DWith_allSucceed (heap : Heap) (h : ∀ r, heap r = true) (d : Buffer)
    (size : Nat) (self : SkinnedModel) :
    LoadFromL3DWith heap d size self = LoadFromL3D d size self := by
  have hv := (loadBodyWith_allSucceed heap h d self).1
  have hl := (loadBodyWith_allSucceed heap h d self).2
  unfold Rd.val at hv
  unfold Rd.log at hl
  unfold LoadFromL3DWith LoadFromL3D loadProgramWith loadProgram
  simp only [Rd.run_bind]
  cases hb : (badMagic.run d).1 with
  | true => simp
  | false => simp [Rd.run_bind, hv, hl]

theorem SkinnedModel.keeps_refl (m : SkinnedModel) : m.keeps m :=
  ⟨⟨[], by simp⟩, fun _ h => h, fun _ h => h⟩

theorem SkinnedModel.keeps_trans {a b c : SkinnedModel} (h1 : a.keeps b) (h2 : b.keeps c) :
    a.keeps c := by
  obtain ⟨⟨x, hx⟩, h1b, h1c⟩ := h1
  obtain ⟨⟨y, hy⟩, h2b, h2c⟩ := h2
  exact ⟨⟨x ++ y, by rw [hy, hx, List.append_assoc]⟩, fun k h => h2b k (h1b k h),
    fun k h => h2c k (h1c k h)⟩

theorem keeps_append_mesh (m : SkinnedModel) (x : Mesh) :
    m.keeps { m with submeshes := m.submeshes ++ [x] } :=
  ⟨⟨[x], rfl⟩, fun _ h => h, fun _ h => h⟩

theorem keeps_assign_skin (m : SkinnedModel) (k : Nat) (v : Int) :
    m.keeps { m with submeshSkinMap := mapAssign m.submeshSkinMap k v } :=
  ⟨⟨[], by simp⟩, fun k2 h => (mem_mapKeys_mapAssign _ k k2 v).mpr (Or.inr h), fun _ h => h⟩

theorem keeps_assign_texture (m : SkinnedModel) (k : Int) (v : Option Texture2D) :
    m.keeps { m with textures := mapAssign m.textures k v } :=
  ⟨⟨[], by simp⟩, fun _ h => h, fun k2 h => (mem_mapKeys_mapAssign _ k k2 v).mpr (Or.inr h)⟩

theorem log_loadSubMesh (d : Buffer) (subMesh sm : Nat) (self : SkinnedModel) :
    (loadSubMesh subMesh sm self).log d = subMeshAccesses d subMesh := by
  simp [loadSubMesh, newVertexBuffer, newIndexBuffer, subMeshAccesses,
    L3D_SubMesh.verticiesOffset, L3D_SubMesh.trianglesOffset, L3D_SubMesh.boneVertLUTOffset,
    L3D_SubMesh.numVerticies, L3D_SubMesh.numTriangles, L3D_SubMesh.skinID, sizeofL3D_Vertex]

theorem loadSubMeshWith_spec (heap : Heap) (d : Buffer) (subMesh sm : Nat)
    (self : SkinnedModel) :
    self.keeps ((loadSubMeshWith heap subMesh sm self).val d).2 ∧
    (∀ a ∈ (loadSubMeshWith heap subMesh sm self).log d, a ∈ subMeshAccesses d subMesh) ∧
    (((loadSubMeshWith heap subMesh sm self).val d).1 = false → ∃ r, heap r = false) := by
  simp only [loadSubMeshWith, newVertexBuffer, newIndexBuffer, Rd.val_bind, Rd.log_bind,
    val_readU32, log_readU32, val_readI32, log_readI32, Rd.val_touch, Rd.log_touch, Rd.val_pure,
    Rd.log_pure, Rd.val_ite, Rd.log_ite, Rd.val_load, Rd.log_load, Rd.val_ret, Rd.log_ret]
  by_cases h1 : heap (AllocRequest.vertexDecl sm) = false
  · simp [h1, subMeshAccesses, SkinnedModel.keeps_refl, L3D_SubMesh.verticiesOffset,
      L3D_SubMesh.trianglesOffset, L3D_SubMesh.boneVertLUTOffset]
    exact ⟨_, h1⟩
  by_cases h2 : heap (AllocRequest.vertexBuffer sm) = false
  · simp [h1, h2, subMeshAccesses, SkinnedModel.keeps_refl, L3D_SubMesh.verticiesOffset,
      L3D_SubMesh.trianglesOffset, L3D_SubMesh.boneVertLUTOffset, L3D_SubMesh.numVerticies]
    exact ⟨_, h2⟩
  by_cases h3 : heap (AllocRequest.indexBuffer sm) = false
  · simp [h1, h2, h3, subMeshAccesses, SkinnedModel.keeps_refl, L3D_SubMesh.verticiesOffset,
      L3D_SubMesh.trianglesOffset, L3D_SubMesh.boneVertLUTOffset, L3D_SubMesh.numVerticies,
      L3D_SubMesh.numTriangles, sizeofL3D_Vertex]
    exact ⟨_, h3⟩
  by_cases h4 : heap (AllocRequest.mesh sm) = false
  · simp [h1, h2, h3, h4, subMeshAccesses, SkinnedModel.keeps_refl,
      L3D_SubMesh.verticiesOffset,
      L3D_SubMesh.trianglesOffset, L3D_SubMesh.boneVertLUTOffset, L3D_SubMesh.numVerticies,
      L3D_SubMesh.numTriangles, sizeofL3D_Vertex]
    exact ⟨_, h4⟩
  have k1 : heap (AllocRequest.vertexDecl sm) = true := by simpa using h1
  have k2 : heap (AllocRequest.vertexBuffer sm) = true := by simpa using h2
  have k3 : heap (AllocRequest.indexBuffer sm) = true := by simpa using h3
  have k4 : heap (AllocRequest.mesh sm) = true := by simpa using h4
  by_cases h5 : (mapFind self.submeshSkinMap sm).isNone = true
      ∧ heap (AllocRequest.skinMapNode sm) = false
  · simp only [k1, k2, k3, k4, Bool.true_eq_false, if_false, h5, and_self, if_true]
    refine ⟨keeps_append_mesh self _, ?_, fun _ => ⟨_, h5.2⟩⟩
    simp [subMeshAccesses, L3D_SubMesh.verticiesOffset,
      L3D_SubMesh.trianglesOffset, L3D_SubMesh.boneVertLUTOffset, L3D_SubMesh.numVerticies,
      L3D_SubMesh.numTriangles, L3D_SubMesh.skinID, sizeofL3D_Vertex]
  · simp only [k1, k2, k3, k4, Bool.true_eq_false, if_false, h5]
    refine ⟨SkinnedModel.keeps_trans (keeps_append_mesh self _) (keeps_assign_skin _ _ _), ?_,
      fun h => by simp at h⟩
    simp [subMeshAccesses, L3D_SubMesh.verticiesOffset,
      L3D_SubMesh.trianglesOffset, L3D_SubMesh.boneVertLUTOffset, L3D_SubMesh.numVerticies,
      L3D_SubMesh.numTriangles, L3D_SubMesh.skinID, sizeofL3D_Vertex]

theorem loadSubMeshesWith_spec (heap : Heap) (d : Buffer) (tbl : Nat) :
    ∀ (n sm : Nat) (self : SkinnedModel),
      self.keeps ((loadSubMeshesWith heap tbl n sm self).val d).2 ∧
      (∀ a ∈ (loadSubMeshesWith heap tbl n sm self).log d,
        ∃ j, j < n ∧ (a = ⟨tbl + 4 * (sm + j), 4, true⟩ ∨
          a ∈ subMeshAccesses d (u32At d (tbl + 4 * (sm + j))))) ∧
      (((loadSubMeshesWith heap tbl n sm self).val d).1 = false → ∃ r, heap r = false) := by
  intro n
  induction n with
  | zero =>
      intro sm self
      simp [loadSubMeshesWith, SkinnedModel.keeps_refl]
  | succ n ih =>
      intro sm self
      obtain ⟨s1, s2, s3⟩ := loadSubMeshWith_spec heap d (u32At d (tbl + 4 * sm)) sm self
      simp only [loadSubMeshesWith, Rd.val_bind, Rd.log_bind, val_readU32, log_readU32,
        Rd.val_ite, Rd.log_ite, Rd.val_pure, Rd.log_pure]
      have hhere : ∀ a, a = (⟨tbl + 4 * sm, 4, true⟩ : Access) ∨
          a ∈ (loadSubMeshWith heap (u32At d (tbl + 4 * sm)) sm self).log d →
          ∃ j, j < n + 1 ∧ (a = ⟨tbl + 4 * (sm + j), 4, true⟩ ∨
            a ∈ subMeshAccesses d (u32At d (tbl + 4 * (sm + j)))) := by
        intro a ha
        refine ⟨0, Nat.succ_pos n, ?_⟩
        rcases ha with ha | ha
        · exact Or.inl ha
        · exact Or.inr (s2 a ha)
      by_cases hf : ((loadSubMeshWith heap (u32At d (tbl + 4 * sm)) sm self).val d).1 = false
      · simp only [hf, if_true]
        refine ⟨s1, ?_, fun _ => s3 hf⟩
        intro a ha
        simp only [List.singleton_append, List.append_nil, List.mem_cons] at ha
        exact hhere a ha
      · simp only [hf, if_false]
        obtain ⟨i1, i2, i3⟩ := ih (sm + 1)
          ((loadSubMeshWith heap (u32At d (tbl + 4 * sm)) sm self).val d).2
        refine ⟨SkinnedModel.keeps_trans s1 i1, ?_, i3⟩
        intro a ha
        simp only [List.singleton_append, List.mem_cons, List.mem_append] at ha
        rcases ha with ha | ha | ha
        · exact hhere a (Or.inl ha)
        · exact hhere a (Or.inr ha)
        · obtain ⟨j, hj, hja⟩ := i2 a ha
          refine ⟨j + 1, by omega, ?_⟩
          rw [show sm + (j + 1) = sm + 1 + j by omega]
          exact hja

theorem log_loadData (d : Buffer) (off len : Nat) :
    (Rd.load off len (fun bs => Rd.ret bs)).log d = [⟨off, len, true⟩] := rfl

theorem loadSkinWith_spec (heap : Heap) (d : Buffer) (skin s : Nat) (self : SkinnedModel) :
    self.keeps ((loadSkinWith heap skin s self).val d).2 ∧
    (∀ a ∈ (loadSkinWith heap skin s self).log d,
      a = ⟨skin, 4, true⟩ ∨ a = ⟨skin + 4, 131072, true⟩) ∧
    (((loadSkinWith heap skin s self).val d).1 = false →
      (∃ r, heap r = false) ∧ ((loadSkinWith heap skin s self).val d).2 = self) := by
  simp only [loadSkinWith, Rd.val_bind, Rd.log_bind, val_readU32, log_readU32, Rd.val_pure,
    Rd.log_pure, Rd.val_ite, Rd.log_ite]
  simp only [log_loadData]
  by_cases h1 : heap (AllocRequest.texture s) = false
  · simp only [h1, if_true]
    exact ⟨SkinnedModel.keeps_refl self, by simp, fun _ => ⟨⟨_, h1⟩, trivial⟩⟩
  have k1 : heap (AllocRequest.texture s) = true := by simpa using h1
  by_cases h2 : (mapFind self.textures (skinKey (u32At d skin))).isNone = true
      ∧ heap (AllocRequest.textureNode s) = false
  · simp only [k1, Bool.true_eq_false, if_false, h2, and_self, if_true]
    exact ⟨SkinnedModel.keeps_refl self, by simp [L3D_Skin.data, sizeofSkinData],
      fun _ => ⟨⟨_, h2.2⟩, trivial⟩⟩
  · simp only [k1, Bool.true_eq_false, if_false, h2]
    exact ⟨keeps_assign_texture self _ _, by simp [L3D_Skin.data, sizeofSkinData],
      fun h => by simp at h⟩

theorem loadSkinsWith_spec (heap : Heap) (d : Buffer) (tbl : Nat) :
    ∀ (n s : Nat) (self : SkinnedModel),
      self.keeps ((loadSkinsWith heap tbl n s self).val d).2 ∧
      (∀ a ∈ (loadSkinsWith heap tbl n s self).log d,
        ∃ j, j < n ∧ (a = ⟨tbl + 4 * (s + j), 4, true⟩ ∨
          a = ⟨u32At d (tbl + 4 * (s + j)), 4, true⟩ ∨
          a = ⟨u32At d (tbl + 4 * (s + j)) + 4, 131072, true⟩)) ∧
      (((loadSkinsWith heap tbl n s self).val d).1 = false → ∃ r, heap r = false) := by
  intro n
  induction n with
  | zero =>
      intro s self
      simp [loadSkinsWith, SkinnedModel.keeps_refl]
  | succ n ih =>
      intro s self
      obtain ⟨s1, s2, s3⟩ := loadSkinWith_spec heap d (u32At d (tbl + 4 * s)) s self
      simp only [loadSkinsWith, Rd.val_bind, Rd.log_bind, val_readU32, log_readU32,
        Rd.val_ite, Rd.log_ite, Rd.val_pure, Rd.log_pure]
      have hhere : ∀ a, a = (⟨tbl + 4 * s, 4, true⟩ : Access) ∨
          a ∈ (loadSkinWith heap (u32At d (tbl + 4 * s)) s self).log d →
          ∃ j, j < n + 1 ∧ (a = ⟨tbl + 4 * (s + j), 4, true⟩ ∨
            a = ⟨u32At d (tbl + 4 * (s + j)), 4, true⟩ ∨
            a = ⟨u32At d (tbl + 4 * (s + j)) + 4, 131072, true⟩) := by
        intro a ha
        refine ⟨0, Nat.succ_pos n, ?_⟩
        rcases ha with ha | ha
        · exact Or.inl ha
        · exact Or.inr (s2 a ha)
      by_cases hf : ((loadSkinWith heap (u32At d (tbl + 4 * s)) s self).val d).1 = false
      · simp only [hf, if_true]
        refine ⟨s1, ?_, fun _ => (s3 hf).1⟩
        intro a ha
        simp only [List.singleton_append, List.append_nil, List.mem_cons] at ha
        exact hhere a ha
      · simp only [hf, if_false]
        obtain ⟨i1, i2, i3⟩ := ih (s + 1)
          ((loadSkinWith heap (u32At d (tbl + 4 * s)) s self).val d).2
        refine ⟨SkinnedModel.keeps_trans s1 i1, ?_, i3⟩
        intro a ha
        simp only [List.singleton_append, List.mem_cons, List.mem_append] at ha
        rcases ha with ha | ha | ha
        · exact hhere a (Or.inl ha)
        · exact hhere a (Or.inr ha)
        · obtain ⟨j, hj, hja⟩ := i2 a ha
          refine ⟨j + 1, by omega, ?_⟩
          rw [show s + (j + 1) = s + 1 + j by omega]
          exact hja

theorem loadBones_log_unused (d : Buffer) (bones : Nat) :
    ∀ (n b : Nat), ∀ a ∈ (loadBones bones n b).log d, a.used = false := by
  intro n b a ha
  rw [log_loadBones] at ha
  obtain ⟨i, _, rfl⟩ := List.mem_map.mp ha
  rfl

theorem loadMeshWith_spec (heap : Heap) (d : Buffer) (mesh : Nat) (self : SkinnedModel) :
    self.keeps ((loadMeshWith heap mesh self).val d).2 ∧
    (∀ a ∈ (loadMeshWith heap mesh self).log d,
      a = ⟨mesh + 4, 4, true⟩ ∨ a = ⟨mesh + 8, 4, true⟩ ∨ a = ⟨mesh + 16, 4, true⟩ ∨
      a = ⟨mesh + 12, 4, true⟩ ∨ a.used = false ∨
      ∃ j, j < u32At d (mesh + 4) ∧ (a = ⟨u32At d (mesh + 8) + 4 * (0 + j), 4, true⟩ ∨
        a ∈ subMeshAccesses d (u32At d (u32At d (mesh + 8) + 4 * (0 + j))))) ∧
    (((loadMeshWith heap mesh self).val d).1 = false → ∃ r, heap r = false) := by
  obtain ⟨s1, s2, s3⟩ := loadSubMeshesWith_spec heap d (u32At d (mesh + 8)) (u32At d (mesh + 4)) 0
    self
  simp only [loadMeshWith, Rd.val_bind, Rd.log_bind, val_readU32, log_readU32, Rd.val_ite,
    Rd.log_ite, Rd.val_pure, Rd.log_pure, L3D_Mesh.numSubMeshes, L3D_Mesh.subMeshOffset,
    L3D_Mesh.bonesOffset, L3D_Mesh.numBones]
  by_cases h1 : self.submeshes.length < u32At d (mesh + 4)
      ∧ heap (AllocRequest.reserve (u32At d (mesh + 4))) = false
  · simp only [h1, and_self, if_true]
    exact ⟨SkinnedModel.keeps_refl self, by simp, fun _ => ⟨_, h1.2⟩⟩
  simp only [h1, if_false]
  by_cases hf : ((loadSubMeshesWith heap (u32At d (mesh + 8)) (u32At d (mesh + 4)) 0 self).val
      d).1 = false
  · simp only [hf, if_true]
    refine ⟨s1, ?_, fun _ => s3 hf⟩
    intro a ha
    simp only [List.singleton_append, List.append_nil, List.mem_cons, List.mem_append] at ha
    rcases ha with ha | ha | ha
    · exact Or.inl ha
    · exact Or.inr (Or.inl ha)
    · exact Or.inr (Or.inr (Or.inr (Or.inr (Or.inr (s2 a ha)))))
  · simp only [hf, if_false]
    refine ⟨s1, ?_, fun h => absurd h hf⟩
    intro a ha
    simp only [List.singleton_append, List.append_nil, List.mem_cons, List.mem_append,
      Bool.true_eq_false, if_false] at ha
    rcases ha with ha | ha | ha | ha | ha | ha
    · exact Or.inl ha
    · exact Or.inr (Or.inl ha)
    · exact Or.inr (Or.inr (Or.inr (Or.inr (Or.inr (s2 a ha)))))
    · exact Or.inr (Or.inr (Or.inl ha))
    · exact Or.inr (Or.inr (Or.inr (Or.inl ha)))
    · exact Or.inr (Or.inr (Or.inr (Or.inr (Or.inl (loadBones_log_unused d _ _ _ a ha)))))

theorem subMeshAccesses_interpreted (d : Buffer) (s : Nat) :
    ∀ a ∈ subMeshAccesses d s, a.used = true → ∀ i, a.covers i →
      inField i (s + 8) 4 ∨ inField i (s + 16) 16 ∨
      inField i (u32At d (s + 20)) (32 * u32At d (s + 16)) ∨
      inField i (u32At d (s + 28)) (6 * u32At d (s + 24)) := by
  intro a ha hu i hc
  simp only [subMeshAccesses, List.mem_cons, List.mem_singleton, List.not_mem_nil, or_false]
    at ha
  rcases ha with rfl | rfl | rfl | rfl | rfl | rfl | rfl | rfl <;>
    simp only [Access.covers, inField] at hc ⊢ <;>
    first
      | omega
      | simp at hu

theorem badMagic_log_interpreted (d : Buffer) :
    ∀ a ∈ badMagic.log d, ∀ i, a.covers i → interpretedByte d i := by
  intro a ha i hc
  have hb := badMagic_log_inBounds d 4 (Nat.le_refl 4) a ha
  left
  unfold Access.inBounds at hb
  unfold Access.covers at hc
  unfold inField
  omega

theorem loadBodyWith_spec (heap : Heap) (d : Buffer) (self : SkinnedModel) :
    self.keeps ((loadBodyWith heap self).val d).2 ∧
    (∀ a ∈ (loadBodyWith heap self).log d, a.used = true → ∀ i, a.covers i →
      interpretedByte d i) ∧
    (((loadBodyWith heap self).val d).1 = false → ∃ r, heap r = false) := by
  have h16 : ∀ a : Access, a = ⟨16, 4, true⟩ ∨ a = ⟨12, 4, true⟩ →
      ∀ i, a.covers i → interpretedByte d i := by
    intro a ha i hc
    right; left
    rcases ha with rfl | rfl <;> simp only [Access.covers, inField] at hc ⊢ <;> omega
  have h60 : ∀ a : Access, a = ⟨60, 4, true⟩ ∨ a = ⟨56, 4, true⟩ →
      ∀ i, a.covers i → interpretedByte d i := by
    intro a ha i hc
    right; right; left
    rcases ha with rfl | rfl <;> simp only [Access.covers, inField] at hc ⊢ <;> omega
  have hskins : ∀ (m : SkinnedModel), ∀ a ∈ (loadSkinsWith heap (u32At d 60) (u32At d 56) 0 m).log d,
      ∀ i, a.covers i → interpretedByte d i := by
    intro m a ha i hc
    obtain ⟨j, hj, hja⟩ := (loadSkinsWith_spec heap d (u32At d 60) (u32At d 56) 0 m).2.1 a ha
    right; right; right; right
    refine ⟨j, hj, ?_⟩
    simp only [Nat.zero_add] at hja
    rcases hja with rfl | rfl | rfl
    · left
      simpa [Access.covers, inField, headerBase, L3DHeader.skinListOffset] using hc
    · right
      simp only [Access.covers, inField, skinAt, headerBase, L3DHeader.skinListOffset,
        Nat.reduceAdd] at hc ⊢
      omega
    · right
      simp only [Access.covers, inField, skinAt, headerBase, L3DHeader.skinListOffset,
        Nat.reduceAdd] at hc ⊢
      omega
  have hmesh : 0 < u32At d 12 →
      ∀ a ∈ (loadMeshWith heap (u32At d (u32At d 16 + 4 * 0)) self).log d, a.used = true →
      ∀ i, a.covers i → interpretedByte d i := by
    intro hm a ha hu i hc
    have hfm : firstMesh d = u32At d (u32At d 16 + 4 * 0) := rfl
    right; right; right; left
    refine ⟨hm, ?_⟩
    rcases (loadMeshWith_spec heap d _ self).2.1 a ha with
      rfl | rfl | rfl | rfl | hn | ⟨j, hj, hja⟩
    · right; left
      rw [hfm]; simp only [Access.covers, inField] at hc ⊢; omega
    · right; left
      rw [hfm]; simp only [Access.covers, inField] at hc ⊢; omega
    · right; left
      rw [hfm]; simp only [Access.covers, inField] at hc ⊢; omega
    · right; left
      rw [hfm]; simp only [Access.covers, inField] at hc ⊢; omega
    · rw [hn] at hu
      exact absurd hu (by decide)
    · right; right
      refine ⟨j, hj, ?_⟩
      simp only [Nat.zero_add] at hja
      rcases hja with rfl | hja
      · left
        simpa [Access.covers, inField, hfm, L3D_Mesh.subMeshOffset] using hc
      · right
        exact subMeshAccesses_interpreted d _ a hja hu i hc
  simp only [loadBodyWith, Rd.val_bind, Rd.log_bind, val_readU32, log_readU32, Rd.val_ite,
    Rd.log_ite, Rd.val_pure, Rd.log_pure, headerBase, L3DHeader.meshListOffset,
    L3DHeader.numMeshes, L3DHeader.skinListOffset, L3DHeader.numSkins, Nat.reduceAdd]
  by_cases hm : 0 < u32At d 12
  · obtain ⟨m1, _, m3⟩ := loadMeshWith_spec heap d (u32At d (u32At d 16 + 4 * 0)) self
    simp only [hm, if_true, Rd.val_bind, Rd.log_bind, val_readU32, log_readU32]
    by_cases hf : ((loadMeshWith heap (u32At d (u32At d 16 + 4 * 0)) self).val d).1 = false
    · simp only [hf, if_true]
      refine ⟨m1, ?_, fun _ => m3 hf⟩
      intro a ha hu i hc
      simp only [List.singleton_append, List.append_nil, List.mem_cons, List.mem_append,
        List.cons_append, List.nil_append] at ha
      rcases ha with ha | ha | ha | ha
      · exact h16 a (Or.inl ha) i hc
      · exact h16 a (Or.inr ha) i hc
      · subst ha
        right; right; right; left
        exact ⟨hm, Or.inl (by simpa [Access.covers, inField, headerBase,
          L3DHeader.meshListOffset] using hc)⟩
      · exact hmesh hm a ha hu i hc
    · simp only [hf, if_false]
      obtain ⟨k1, _, k3⟩ := loadSkinsWith_spec heap d (u32At d 60) (u32At d 56) 0
        ((loadMeshWith heap (u32At d (u32At d 16 + 4 * 0)) self).val d).2
      refine ⟨SkinnedModel.keeps_trans m1 k1, ?_, k3⟩
      intro a ha hu i hc
      simp only [List.singleton_append, List.append_nil, List.mem_cons, List.mem_append,
        List.cons_append, List.nil_append, Bool.true_eq_false, if_false] at ha
      rcases ha with ha | ha | ha | ha | ha | ha | ha
      · exact h16 a (Or.inl ha) i hc
      · exact h16 a (Or.inr ha) i hc
      · subst ha
        right; right; right; left
        exact ⟨hm, Or.inl (by simpa [Access.covers, inField, headerBase,
          L3DHeader.meshListOffset] using hc)⟩
      · exact hmesh hm a ha hu i hc
      · exact h60 a (Or.inl ha) i hc
      · exact h60 a (Or.inr ha) i hc
      · exact hskins _ a ha i hc
  · simp only [hm, if_false, Rd.val_pure, Rd.log_pure, Bool.true_eq_false]
    obtain ⟨k1, _, k3⟩ := loadSkinsWith_spec heap d (u32At d 60) (u32At d 56) 0 self
    refine ⟨k1, ?_, k3⟩
    intro a ha hu i hc
    simp only [List.singleton_append, List.append_nil, List.mem_cons, List.mem_append,
      List.cons_append, List.nil_append] at ha
    rcases ha with ha | ha | ha | ha | ha
    · exact h16 a (Or.inl ha) i hc
    · exact h16 a (Or.inr ha) i hc
    · exact h60 a (Or.inl ha) i hc
    · exact h60 a (Or.inr ha) i hc
    · exact hskins _ a ha i hc

theorem LoadFromL3DWith_bad (heap : Heap) (d : Buffer) (size : Nat) (self : SkinnedModel)
    (h : ¬ validMagic d) :
    LoadFromL3DWith heap d size self
      = ⟨Except.error LoadError.invalidL3DFile, self, badMagic.log d⟩ := by
  have hb := (badMagic_val d).mpr h
  unfold LoadFromL3DWith loadProgramWith
  simp only [Rd.run_bind]
  simp [Rd.val] at hb
  simp [hb, Rd.log]

theorem LoadFromL3DWith_valid (heap : Heap) (d : Buffer) (size : Nat) (self : SkinnedModel)
    (h : validMagic d) :
    LoadFromL3DWith heap d size self =
      ⟨if ((loadBodyWith heap self).val d).1 = true then Except.ok ()
          else Except.error LoadError.badAlloc,
        ((loadBodyWith heap self).val d).2, badMagic.log d ++ (loadBodyWith heap self).log d⟩ := by
  have hb : badMagic.val d = false := by
    cases hv : badMagic.val d with
    | false => rfl
    | true => exact absurd h ((badMagic_val d).mp hv)
  unfold LoadFromL3DWith loadProgramWith
  simp only [Rd.run_bind]
  simp [Rd.val] at hb
  simp [hb, Rd.log, Rd.val, Rd.run_bind]

/-- A call with an allocator depends on the buffer only through the bytes its used
accesses cover. -/
theorem LoadFromL3DWith_congr (heap : Heap) (d1 d2 : Buffer) (size : Nat) (self : SkinnedModel)
    (h : agreeOn (LoadFromL3DWith heap d1 size self).reads d1 d2) :
    LoadFromL3DWith heap d2 size self = LoadFromL3DWith heap d1 size self := by
  unfold LoadFromL3DWith
  rw [Rd.run_congr (loadProgramWith heap self) d1 d2 h]

/-- Every byte a call reads for a value it uses belongs to an interpreted field. -/
theorem LoadFromL3DWith_reads_interpreted (heap : Heap) (d : Buffer) (size : Nat)
    (self : SkinnedModel) :
    ∀ a ∈ (LoadFromL3DWith heap d size self).reads, a.used = true → ∀ i, a.covers i →
      interpretedByte d i := by
  intro a ha hu i hc
  by_cases hv : validMagic d
  · rw [LoadFromL3DWith_valid heap d size self hv] at ha
    rcases List.mem_append.mp ha with h1 | h1
    · exact badMagic_log_interpreted d a h1 i hc
    · exact (loadBodyWith_spec heap d self).2.1 a h1 hu i hc
  · rw [LoadFromL3DWith_bad heap d size self hv] at ha
    exact badMagic_log_interpreted d a ha i hc

theorem variedFile_fields (i : Nat)
    (h : inField i 4 4 ∨ inField i 72 4 ∨ inField i 80 4 ∨ inField i 104 4 ∨ inField i 140 4 ∨
      inField i 131330 4) :
    uninterpretedByte boneFile i ∧ ¬ interpretedByte boneFile i := by
  rcases h with h | h | h | h | h | h <;> obtain ⟨h1, h2⟩ := h <;>
    interval_cases i <;> exact ⟨by decide, by decide⟩

/-! # The claims -/

/-! ## C1 -/

/-- C1: for a buffer of at least 4 bytes, `LoadFromL3D` throws the "Invalid L3D
file" error exactly when the first four bytes are not `L`, `3`, `D`, `0`; when it
throws, the three members of the model are what they were before the call, and
the call has read inside the buffer only. -/
theorem C1_format_error_iff_bad_magic (data : Buffer) (size : Nat) (self : SkinnedModel)
    (h : 4 ≤ size) :
    ((LoadFromL3D data size self).outcome = Except.error LoadError.invalidL3DFile ↔
        readBytes data 0 4 ≠ [76, 51, 68, 48]) ∧
    ((LoadFromL3D data size self).outcome = Except.error LoadError.invalidL3DFile →
        (LoadFromL3D data size self).model.submeshes = self.submeshes ∧
        (LoadFromL3D data size self).model.submeshSkinMap = self.submeshSkinMap ∧
        (LoadFromL3D data size self).model.textures = self.textures ∧
        allInBounds (LoadFromL3D data size self).reads size) := by
  by_cases hv : validMagic data
  · rw [LoadFromL3D_valid data size self hv]
    have hv2 : readBytes data 0 4 = [76, 51, 68, 48] := hv
    simp [hv2]
  · rw [LoadFromL3D_bad data size self hv]
    have hv2 : readBytes data 0 4 ≠ [76, 51, 68, 48] := hv
    simp [hv2, badMagic_log_inBounds data size h]

/-- C1 at a four-byte buffer holding `L3D1`. -/
theorem C1_format_error_iff_bad_magic_witness :
    4 ≤ 4 ∧
    (((LoadFromL3D wrongVersion 4 SkinnedModel.empty).outcome
          = Except.error LoadError.invalidL3DFile ↔
        readBytes wrongVersion 0 4 ≠ [76, 51, 68, 48]) ∧
    ((LoadFromL3D wrongVersion 4 SkinnedModel.empty).outcome
          = Except.error LoadError.invalidL3DFile →
        (LoadFromL3D wrongVersion 4 SkinnedModel.empty).model.submeshes
          = SkinnedModel.empty.submeshes ∧
        (LoadFromL3D wrongVersion 4 SkinnedModel.empty).model.submeshSkinMap
          = SkinnedModel.empty.submeshSkinMap ∧
        (LoadFromL3D wrongVersion 4 SkinnedModel.empty).model.textures
          = SkinnedModel.empty.textures ∧
        allInBounds (LoadFromL3D wrongVersion 4 SkinnedModel.empty).reads 4)) :=
  ⟨by decide, C1_format_error_iff_bad_magic wrongVersion 4 SkinnedModel.empty (by decide)⟩

/-! ## C2 -/

/-- C3 at `overflowFile`: the magic is valid, there is one mesh with one submesh,
every read of the call and the whole declared triangle array are in bounds, the
submesh declares 1431655766 triangles, and the one mesh resource built has an index
count of 2, not 3 * 1431655766 (the product is formed in 32 bits). -/
theorem C3_index_count_wraps :
    validMagic overflowFile ∧ numMeshes overflowFile = 1 ∧ numSubMeshes overflowFile = 1 ∧
    allInBounds (LoadFromL3D overflowFile overflowSize SkinnedModel.empty).reads overflowSize ∧
    u32At overflowFile (subMeshAt overflowFile 0 + 24) = 1431655766 ∧
    u32At overflowFile (subMeshAt overflowFile 0 + 28) + 6 * 1431655766 ≤ overflowSize ∧
    (LoadFromL3D overflowFile overflowSize SkinnedModel.empty).model.submeshes.map
        (fun m => (m.vertexBuffer.vertexCount, m.indexBuffer.indicesCount)) = [(1, 2)] ∧
    2 ≠ 3 * 1431655766 := by
  decide

/-! ## C4 -/

/-- C4 at `overflowFile`: the triangle array of 1431655766 triangles starts at byte
184 with the triangle (0, 1, 2) and is in bounds; the vertex buffer is handed the 32
bytes of the one vertex, and the index buffer is handed two 16-bit values, 0 and 1:
not the 3 * 1431655766 indices of the array, not even the first triangle. -/
theorem C4_index_data_truncated :
    validMagic overflowFile ∧
    allInBounds (LoadFromL3D overflowFile overflowSize SkinnedModel.empty).reads overflowSize ∧
    u32At overflowFile (subMeshAt overflowFile 0 + 24) = 1431655766 ∧
    u32At overflowFile (subMeshAt overflowFile 0 + 28) = 184 ∧
    184 + 6 * 1431655766 ≤ overflowSize ∧
    decodeU16s (readBytes overflowFile 184 6) = [0, 1, 2] ∧
    (LoadFromL3D overflowFile overflowSize SkinnedModel.empty).model.submeshes.map
        (fun m => m.vertexBuffer.data) = [readBytes overflowFile 152 32] ∧
    (LoadFromL3D overflowFile overflowSize SkinnedModel.empty).model.submeshes.map
        (fun m => decodeU16s m.indexBuffer.data) = [[0, 1]] := by
  decide

/-! ## C5 -/

/-- C5, as stated, fails when another record lies over the header field: in
`aliasedFile` the skin-offset table is at byte 12, so `numMeshes` (194) is also
`skinOffsets[0]`.  Both the file and the file with `numMeshes` overwritten by 1 have
a valid magic and all reads in bounds, and the two loads differ: the texture is
keyed 7 in one and 3163187 in the other. -/
theorem C5_counterexample :
    validMagic aliasedFile ∧ 1 ≤ numMeshes aliasedFile ∧
    allInBounds (LoadFromL3D aliasedFile minimalSize SkinnedModel.empty).reads minimalSize ∧
    allInBounds (LoadFromL3D (pokeU32 aliasedFile 12 1) minimalSize SkinnedModel.empty).reads
      minimalSize ∧
    mapKeys (LoadFromL3D aliasedFile minimalSize SkinnedModel.empty).model.textures = [7] ∧
    mapKeys (LoadFromL3D (pokeU32 aliasedFile 12 1) minimalSize SkinnedModel.empty).model.textures
      = [3163187] ∧
    (LoadFromL3D (pokeU32 aliasedFile 12 1) minimalSize SkinnedModel.empty).model
      ≠ (LoadFromL3D aliasedFile minimalSize SkinnedModel.empty).model := by
  refine ⟨by decide, by decide, by decide, by decide, by decide, by decide, ?_⟩
  intro h
  have h2 := congrArg (fun m => mapKeys m.textures) h
  revert h2
  decide

/-- C5, amended: for a buffer with valid magic, at least one mesh and all reads in
bounds, in which the header's own read of `numMeshes` is the only access of the
load that reads bytes 12..15, the load of the buffer with `numMeshes` overwritten
by 1 ends the same way and leaves the same model; and overwriting a mesh-list entry
of index at least 1 that no access of the load reads changes nothing either. -/
theorem C5_only_first_mesh_processed (data : Buffer) (size : Nat) (self : SkinnedModel)
    (hmagic : validMagic data) (hmesh : 1 ≤ numMeshes data)
    (_hin : allInBounds (LoadFromL3D data size self).reads size)
    (halias : countOverlaps (LoadFromL3D data size self).reads 12 4 ≤ 1) :
    ((LoadFromL3D (pokeU32 data 12 1) size self).outcome = (LoadFromL3D data size self).outcome ∧
      (LoadFromL3D (pokeU32 data 12 1) size self).model = (LoadFromL3D data size self).model) ∧
    (∀ j v, 1 ≤ j →
      countOverlaps (LoadFromL3D data size self).reads (u32At data 16 + 4 * j) 4 = 0 →
      (LoadFromL3D (pokeU32 data (u32At data 16 + 4 * j) v) size self).model
        = (LoadFromL3D data size self).model) := by
  have hm : 0 < numMeshes data := hmesh
  constructor
  · -- the poked buffer keeps the magic, the mesh-list offset and a non-zero count
    have hmagic2 : validMagic (pokeU32 data 12 1) := by
      unfold validMagic at hmagic ⊢
      rw [← hmagic]
      apply readBytes_congr
      intro i _ hi
      rw [pokeU32_outside]
      omega
    have h16 : u32At (pokeU32 data 12 1) 16 = u32At data 16 := by
      unfold u32At
      rw [readBytes_congr (pokeU32 data 12 1) data 16 4 (fun i hi _ => by
        rw [pokeU32_outside]
        omega)]
    have hm2 : 0 < numMeshes (pokeU32 data 12 1) := by
      show 0 < u32At (pokeU32 data 12 1) 12
      rw [u32At_pokeU32_one]
      exact Nat.one_pos
    -- no access of the two phases reads bytes 12..15
    rw [LoadFromL3D_valid data size self hmagic, log_loadBody data self hm] at halias
    simp only [countOverlaps_append] at halias
    have hhead : countOverlaps [(⟨16, 4, true⟩ : Access), ⟨12, 4, true⟩] 12 4 = 1 := by decide
    have hL1 : countOverlaps ((loadFirstMesh (u32At data 16) self).log data) 12 4 = 0 := by
      omega
    have hL2 : countOverlaps
        ((loadSkinTable ((loadFirstMesh (u32At data 16) self).val data)).log data) 12 4 = 0 := by
      omega
    have e1 := Rd.val_congr (loadFirstMesh (u32At data 16) self) data (pokeU32 data 12 1)
      (agreeOn_pokeU32 _ data 12 1 (countOverlaps_zero _ 12 4 hL1))
    have e2 := Rd.val_congr (loadSkinTable ((loadFirstMesh (u32At data 16) self).val data))
      data (pokeU32 data 12 1) (agreeOn_pokeU32 _ data 12 1 (countOverlaps_zero _ 12 4 hL2))
    rw [LoadFromL3D_valid data size self hmagic, LoadFromL3D_valid _ size self hmagic2]
    dsimp only
    refine ⟨rfl, ?_⟩
    rw [val_loadBody_phases _ self hm2, val_loadBody_phases data self hm, h16, e1, e2]
  · intro j v _ hcount
    rw [LoadFromL3D_congr data _ size self
      (agreeOn_pokeU32 _ data _ v (countOverlaps_zero _ _ 4 hcount))]

/-- C5 amended, at the minimal file declaring three meshes. -/
theorem C5_only_first_mesh_processed_witness :
    validMagic threeMeshFile ∧ 1 ≤ numMeshes threeMeshFile ∧
    allInBounds (LoadFromL3D threeMeshFile minimalSize SkinnedModel.empty).reads minimalSize ∧
    countOverlaps (LoadFromL3D threeMeshFile minimalSize SkinnedModel.empty).reads 12 4 ≤ 1 ∧
    numMeshes threeMeshFile = 3 ∧
    (((LoadFromL3D (pokeU32 threeMeshFile 12 1) minimalSize SkinnedModel.empty).outcome
        = (LoadFromL3D threeMeshFile minimalSize SkinnedModel.empty).outcome ∧
      (LoadFromL3D (pokeU32 threeMeshFile 12 1) minimalSize SkinnedModel.empty).model
        = (LoadFromL3D threeMeshFile minimalSize SkinnedModel.empty).model) ∧
    (∀ j v, 1 ≤ j →
      countOverlaps (LoadFromL3D threeMeshFile minimalSize SkinnedModel.empty).reads
        (u32At threeMeshFile 16 + 4 * j) 4 = 0 →
      (LoadFromL3D (pokeU32 threeMeshFile (u32At threeMeshFile 16 + 4 * j) v) minimalSize
          SkinnedModel.empty).model
        = (LoadFromL3D threeMeshFile minimalSize SkinnedModel.empty).model)) :=
  ⟨by decide, by decide, by decide, by decide, by decide,
    C5_only_first_mesh_processed threeMeshFile minimalSize SkinnedModel.empty
      (by decide) (by decide) (by decide) (by decide)⟩

/-! ## C6 -/

/-- C6: after a load of a buffer with valid magic, at least one mesh and all reads
in bounds, the submesh-to-skin map sends every position `sm` below the number of
submeshes of the first mesh to the `int32_t` stored at byte offset 8 of the
submesh record found at `submeshOffsets[sm]`. -/
theorem C6_submesh_position_maps_to_skinID (data : Buffer) (size : Nat) (self : SkinnedModel)
    (hmagic : validMagic data) (hmesh : 1 ≤ numMeshes data)
    (_hin : allInBounds (LoadFromL3D data size self).reads size) :
    ∀ sm, sm < numSubMeshes data →
      mapFind (LoadFromL3D data size self).model.submeshSkinMap sm
        = some (i32At data (subMeshAt data sm + 8)) := by
  intro sm hsm
  have hm : 0 < numMeshes data := hmesh
  rw [LoadFromL3D_model data size self hmagic]
  simp only [hm, if_true]
  rw [(val_loadSkins data _ _ 0 _).2.1]
  rw [(val_loadSubMeshes data _ _ 0 self).2.2.1 sm]
  rw [if_pos (show 0 ≤ sm ∧ sm < 0 + numSubMeshes data by omega)]
  rfl

/-- C6 at the minimal file: position 0 maps to the skin identifier 7. -/
theorem C6_submesh_position_maps_to_skinID_witness :
    validMagic minimalFile ∧ 1 ≤ numMeshes minimalFile ∧
    allInBounds (LoadFromL3D minimalFile minimalSize SkinnedModel.empty).reads minimalSize ∧
    numSubMeshes minimalFile = 1 ∧ i32At minimalFile (subMeshAt minimalFile 0 + 8) = 7 ∧
    (∀ sm, sm < numSubMeshes minimalFile →
      mapFind (LoadFromL3D minimalFile minimalSize SkinnedModel.empty).model.submeshSkinMap sm
        = some (i32At minimalFile (subMeshAt minimalFile sm + 8))) :=
  ⟨by decide, by decide, by decide, by decide, by decide,
    C6_submesh_position_maps_to_skinID minimalFile minimalSize SkinnedModel.empty
      (by decide) (by decide) (by decide)⟩

/-! ## C7 -/

/-- C7: after a load of a buffer with valid magic and all reads in bounds into an
empty model, the keys of the skin-to-texture map are exactly the identifiers
(`skinID`, as a key) of the `numSkins` skin records reached through the offset table
at `skinListOffset`; and the identifier of a record that no later record of the
table repeats maps to the texture built from the 65536 16-bit texels (131072
bytes) stored right after that record's `skinID`. -/
theorem C7_textures_keyed_by_skinID (data : Buffer) (size : Nat)
    (hmagic : validMagic data)
    (_hin : allInBounds (LoadFromL3D data size SkinnedModel.empty).reads size) :
    (∀ key, key ∈ mapKeys (LoadFromL3D data size SkinnedModel.empty).model.textures ↔
        ∃ s, s < numSkins data ∧ skinKey (u32At data (skinAt data s)) = key) ∧
    (∀ s, s < numSkins data →
        (∀ s2, s < s2 → s2 < numSkins data →
          u32At data (skinAt data s2) ≠ u32At data (skinAt data s)) →
        ∃ t, mapFind (LoadFromL3D data size SkinnedModel.empty).model.textures
              (skinKey (u32At data (skinAt data s))) = some (some t) ∧
          t.data = readBytes data (skinAt data s + 4) (2 * 65536) ∧
          t.width = 256 ∧ t.height = 256) := by
  rw [LoadFromL3D_model data size SkinnedModel.empty hmagic]
  have hself : (if 0 < numMeshes data
      then (loadSubMeshes (u32At data (firstMesh data + L3D_Mesh.subMeshOffset))
        (numSubMeshes data) 0 SkinnedModel.empty).val data
      else SkinnedModel.empty).textures = [] := by
    split
    · rw [(val_loadSubMeshes data _ _ 0 SkinnedModel.empty).2.1]; rfl
    · rfl
  obtain ⟨_, _, h3, h4, _⟩ := val_loadSkins data
    (u32At data (headerBase + L3DHeader.skinListOffset)) (numSkins data) 0
    (if 0 < numMeshes data
      then (loadSubMeshes (u32At data (firstMesh data + L3D_Mesh.subMeshOffset))
        (numSubMeshes data) 0 SkinnedModel.empty).val data
      else SkinnedModel.empty)
  constructor
  · intro key
    rw [h3 key, hself]
    simp [mapKeys, skinAt]
  · intro s hs hlast
    refine ⟨textureOf data (skinAt data s), ?_,
      by simp [textureOf, L3D_Skin.data, sizeofSkinData], rfl, rfl⟩
    refine h4 s (Nat.zero_le s) (by omega) ?_
    intro s2 h1 h2 hkey
    exact hlast s2 h1 (by omega) (skinKey_inj _ _ (u32At_lt _ _) (u32At_lt _ _) hkey)

/-- C7 at the minimal file: the one skin record, with identifier 7. -/
theorem C7_textures_keyed_by_skinID_witness :
    validMagic minimalFile ∧
    allInBounds (LoadFromL3D minimalFile minimalSize SkinnedModel.empty).reads minimalSize ∧
    numSkins minimalFile = 1 ∧ skinKey (u32At minimalFile (skinAt minimalFile 0)) = 7 ∧
    ((∀ key, key ∈ mapKeys (LoadFromL3D minimalFile minimalSize SkinnedModel.empty).model.textures ↔
        ∃ s, s < numSkins minimalFile ∧ skinKey (u32At minimalFile (skinAt minimalFile s)) = key) ∧
    (∀ s, s < numSkins minimalFile →
        (∀ s2, s < s2 → s2 < numSkins minimalFile →
          u32At minimalFile (skinAt minimalFile s2) ≠ u32At minimalFile (skinAt minimalFile s)) →
        ∃ t, mapFind (LoadFromL3D minimalFile minimalSize SkinnedModel.empty).model.textures
              (skinKey (u32At minimalFile (skinAt minimalFile s))) = some (some t) ∧
          t.data = readBytes minimalFile (skinAt minimalFile s + 4) (2 * 65536) ∧
          t.width = 256 ∧ t.height = 256)) :=
  ⟨by decide, by decide, by decide, by decide,
    C7_textures_keyed_by_skinID minimalFile minimalSize (by decide) (by decide)⟩

/-! ## C8 -/

/-- C8: on a model with `n` mesh resources in which every position below `n` has a
submesh-to-skin entry whose identifier has a texture, `Draw` completes and emits
exactly `2 * n` events: for each position `i`, in build order, event `2 * i` binds
the texture of the skin identifier of submesh `i` and event `2 * i + 1` draws
mesh `i`. -/
theorem C8_draw_binds_then_draws_in_order (self : SkinnedModel) (h : self.consistent) :
    (Draw self).faulted = false ∧
    (Draw self).events.length = 2 * self.submeshes.length ∧
    ∀ i mesh, self.submeshes[i]? = some mesh →
      ∃ k t, mapFind self.submeshSkinMap i = some k ∧
        mapFind self.textures k = some (some t) ∧
        (Draw self).events[2 * i]? = some (DrawEvent.bind t) ∧
        (Draw self).events[2 * i + 1]? = some (DrawEvent.draw mesh) := by
  have h0 : ∀ j, j < self.submeshes.length → (skinTexture self (0 + j)).isSome = true := by
    intro j hj
    simpa using h j hj
  have hd : Draw self = ⟨self, bindDrawEvents self self.submeshes 0, false⟩ := by
    unfold Draw
    rw [drawLoop_consistent self self.submeshes 0 [] h0]
    simp
  rw [hd]
  refine ⟨rfl, bindDrawEvents_length self self.submeshes 0 h0, ?_⟩
  intro i mesh hi
  obtain ⟨t, ht, hb, hdr⟩ := bindDrawEvents_get self self.submeshes 0 h0 i mesh hi
  simp only [Nat.zero_add] at ht
  obtain ⟨k, hk, hkt⟩ := skinTexture_some self i t ht
  exact ⟨k, t, hk, hkt, hb, hdr⟩

/-- C8 at a model with two mesh resources sharing one skin. -/
theorem C8_draw_binds_then_draws_in_order_witness :
    sharedSkinModel.consistent ∧
    (Draw sharedSkinModel).events =
      [DrawEvent.bind sampleTexture, DrawEvent.draw (sampleMesh 1),
       DrawEvent.bind sampleTexture, DrawEvent.draw (sampleMesh 2)] ∧
    ((Draw sharedSkinModel).faulted = false ∧
    (Draw sharedSkinModel).events.length = 2 * sharedSkinModel.submeshes.length ∧
    ∀ i mesh, sharedSkinModel.submeshes[i]? = some mesh →
      ∃ k t, mapFind sharedSkinModel.submeshSkinMap i = some k ∧
        mapFind sharedSkinModel.textures k = some (some t) ∧
        (Draw sharedSkinModel).events[2 * i]? = some (DrawEvent.bind t) ∧
        (Draw sharedSkinModel).events[2 * i + 1]? = some (DrawEvent.draw mesh)) :=
  have hc : sharedSkinModel.consistent := by
    intro i hi
    have hi2 : i < 2 := hi
    interval_cases i <;> rfl
  ⟨hc, by decide, C8_draw_binds_then_draws_in_order sharedSkinModel hc⟩

/-! ## C9 -/

/-- C9, as stated, fails: in a model whose second submesh has the skin identifier
9, which has no texture, `Draw` dereferences the null texture its lookup inserted:
it ends there, having issued the bind and the draw of the first submesh only; the
second mesh is never drawn. -/
theorem C9_counterexample :
    mapFind missingSkinModel.submeshSkinMap 1 = some 9 ∧
    mapFind missingSkinModel.textures 9 = none ∧
    (Draw missingSkinModel).faulted = true ∧
    (Draw missingSkinModel).events =
      [DrawEvent.bind sampleTexture, DrawEvent.draw (sampleMesh 1)] ∧
    DrawEvent.draw (sampleMesh 2) ∉ (Draw missingSkinModel).events ∧
    mapFind (Draw missingSkinModel).model.textures 9 = some none := by
  decide

/-- C9, amended: `Draw` has no fallback for a missing skin.  When position `p` is
the first whose skin identifier `k` has no entry in the skin-to-texture map, `Draw`
issues, in order, the bind and the draw of each of the `p` earlier submeshes, then
its lookup inserts a null texture for `k` and the bind dereferences it: the call
ends there, and the submesh at `p` and the later ones are not drawn. -/
theorem C9_draw_stops_at_missing_skin (self : SkinnedModel) (p : Nat) (k : Int)
    (hp : p < self.submeshes.length)
    (hbefore : ∀ i, i < p → (skinTexture self i).isSome = true)
    (hk : mapFind self.submeshSkinMap p = some k)
    (hmiss : mapFind self.textures k = none) :
    (Draw self).faulted = true ∧
    (Draw self).events = bindDrawEvents self (self.submeshes.take p) 0 ∧
    (Draw self).events.length = 2 * p ∧
    mapFind (Draw self).model.textures k = some none := by
  have h0 : ∀ j, j < p → (skinTexture self (0 + j)).isSome = true := by
    intro j hj
    simpa using hbefore j hj
  have hd := drawLoop_missing self k hmiss self.submeshes 0 p [] hp h0 (by simpa using hk)
  have h1 : ∀ j, j < (self.submeshes.take p).length → (skinTexture self (0 + j)).isSome = true := by
    intro j hj
    exact h0 j (by simp at hj; omega)
  unfold Draw
  rw [hd]
  refine ⟨rfl, by simp, ?_, mapFind_append_of_none _ _ _ hmiss⟩
  simp only [List.nil_append]
  rw [bindDrawEvents_length self _ 0 h1]
  simp
  omega

/-- C9 amended, at a model whose second submesh has a skin without texture. -/
theorem C9_draw_stops_at_missing_skin_witness :
    1 < missingSkinModel.submeshes.length ∧
    (∀ i, i < 1 → (skinTexture missingSkinModel i).isSome = true) ∧
    mapFind missingSkinModel.submeshSkinMap 1 = some 9 ∧
    mapFind missingSkinModel.textures 9 = none ∧
    ((Draw missingSkinModel).faulted = true ∧
    (Draw missingSkinModel).events
      = bindDrawEvents missingSkinModel (missingSkinModel.submeshes.take 1) 0 ∧
    (Draw missingSkinModel).events.length = 2 * 1 ∧
    mapFind (Draw missingSkinModel).model.textures 9 = some none) :=
  ⟨by decide, by decide, by decide, by decide,
    C9_draw_stops_at_missing_skin missingSkinModel 1 9 (by decide) (by decide) (by decide)
      (by decide)⟩

/-! ## C10 -/

/-- C11, as stated, fails: the bone record (three `int32_t`, nine `float` of
rotation, three `float` of position) is 60 bytes, not 48.  In the minimal file with
two bones at `bonesOffset` 198, the loader reads bone 1 at byte 258 = 198 + 60, 60
bytes long, and performs no access at byte 246 = 198 + 48. -/
theorem C11_counterexample :
    validMagic twoBoneFile ∧
    u32At twoBoneFile (firstMesh twoBoneFile + 12) = 2 ∧
    u32At twoBoneFile (firstMesh twoBoneFile + 16) = 198 ∧
    (⟨198 + 60 * 1, 60, false⟩ : Access)
      ∈ (LoadFromL3D twoBoneFile minimalSize SkinnedModel.empty).reads ∧
    (∀ a ∈ (LoadFromL3D twoBoneFile minimalSize SkinnedModel.empty).reads,
      a.off ≠ 198 + 48 * 1) ∧
    L3D_Bone.members.size = 60 ∧ L3D_Bone.members.size ≠ 48 := by
  decide

/-- C11, amended: for every mesh record the loader processes and every `i` below
its `numBones`, the loader reads bone `i` at buffer byte `bonesOffset + 60 * i`, 60
bytes long: the bone record (three `int32_t` links, nine `float` of rotation, three
`float` of position) has a size and an array stride of 60 bytes. -/
theorem C11_bone_stride_is_sixty (data : Buffer) (size : Nat) (self : SkinnedModel)
    (hmagic : validMagic data) (hmesh : 1 ≤ numMeshes data) (i : Nat)
    (hi : i < u32At data (firstMesh data + 12)) :
    (⟨u32At data (firstMesh data + 16) + 60 * i, 60, false⟩ : Access)
      ∈ (LoadFromL3D data size self).reads ∧
    L3D_Bone.members.size = 60 ∧ sizeofL3D_Bone = 60 ∧ 60 = 3 * 4 + 9 * 4 + 3 * 4 ∧
    (∀ mesh self2, ∃ before, (loadMesh mesh self2).log data =
      before ++ (List.range (u32At data (mesh + 12))).map
        (fun b => (⟨u32At data (mesh + 16) + 60 * b, 60, false⟩ : Access))) := by
  have hm : 0 < numMeshes data := hmesh
  refine ⟨?_, by decide, by decide, by decide, ?_⟩
  · rw [LoadFromL3D_reads data size self hmagic, if_pos hm, log_loadFirstMesh, log_loadMesh]
    have hmem : (⟨u32At data (firstMesh data + 16) + 60 * i, 60, false⟩ : Access)
        ∈ (List.range (u32At data (firstMesh data + 12))).map
            (fun b => boneAccess (u32At data (firstMesh data + 16)) b) :=
      List.mem_map.mpr ⟨i, List.mem_range.mpr hi, rfl⟩
    have hfm : firstMesh data = u32At data (u32At data 16) := by
      simp [firstMesh, headerBase, L3DHeader.meshListOffset]
    rw [hfm] at hmem
    simp only [List.mem_append, List.mem_cons]
    exact Or.inl (Or.inr (Or.inr (Or.inr hmem)))
  · intro mesh self2
    exact ⟨_, log_loadMesh data mesh self2⟩

/-- C11 amended, at the minimal file with two bones: bone 1 is read at byte 258. -/
theorem C11_bone_stride_is_sixty_witness :
    validMagic twoBoneFile ∧ 1 ≤ numMeshes twoBoneFile ∧
    1 < u32At twoBoneFile (firstMesh twoBoneFile + 12) ∧
    u32At twoBoneFile (firstMesh twoBoneFile + 16) + 60 * 1 = 258 ∧
    ((⟨u32At twoBoneFile (firstMesh twoBoneFile + 16) + 60 * 1, 60, false⟩ : Access)
      ∈ (LoadFromL3D twoBoneFile minimalSize SkinnedModel.empty).reads ∧
    L3D_Bone.members.size = 60 ∧ sizeofL3D_Bone = 60 ∧ 60 = 3 * 4 + 9 * 4 + 3 * 4 ∧
    (∀ mesh self2, ∃ before, (loadMesh mesh self2).log twoBoneFile =
      before ++ (List.range (u32At twoBoneFile (mesh + 12))).map
        (fun b => (⟨u32At twoBoneFile (mesh + 16) + 60 * b, 60, false⟩ : Access)))) :=
  ⟨by decide, by decide, by decide, by decide,
    C11_bone_stride_is_sixty twoBoneFile minimalSize SkinnedModel.empty (by decide) (by decide)
      1 (by decide)⟩

/-! ## C12 -/

/-- C12: the header is a record of 18 `uint32_t` members (72 bytes) placed at
buffer byte 4, so that `numMeshes`, `meshListOffset`, `numSkins` and `skinListOffset`
are the little-endian 32-bit values at buffer bytes 12, 16, 56 and 60.  A load of a
buffer with valid magic is the mesh phase run on the offset table at byte
`meshListOffset` (when `numMeshes` is not zero) followed by the skin phase run on
the `numSkins` entries of the offset table at byte `skinListOffset`: right after the
two header fields it reads the mesh-offset table at byte `meshListOffset` itself,
and entry `s` of the skin-offset table at byte `skinListOffset + 4 * s`; offsets
count from buffer byte 0. -/
theorem C12_header_fields_at_absolute_offsets (data : Buffer) (size : Nat)
    (self : SkinnedModel) (hmagic : validMagic data) :
    (L3DHeader.members.length = 18 ∧ L3DHeader.members.size = 72 ∧ headerBase = 4 ∧
      (L3DHeader.members.offsetOf "numMeshes").map (fun o => headerBase + o) = some 12 ∧
      (L3DHeader.members.offsetOf "meshListOffset").map (fun o => headerBase + o) = some 16 ∧
      (L3DHeader.members.offsetOf "numSkins").map (fun o => headerBase + o) = some 56 ∧
      (L3DHeader.members.offsetOf "skinListOffset").map (fun o => headerBase + o) = some 60) ∧
    (∀ off, u32At data off =
      data off % 256 + 256 * (data (off + 1) % 256 + 256 * (data (off + 2) % 256
        + 256 * (data (off + 3) % 256)))) ∧
    (LoadFromL3D data size self).model =
      (loadSkins (u32At data 60) (u32At data 56) 0
        (if 0 < u32At data 12 then (loadFirstMesh (u32At data 16) self).val data
          else self)).val data ∧
    (0 < u32At data 12 →
      ∃ rest, (LoadFromL3D data size self).reads =
        magicAccesses ++ [⟨16, 4, true⟩, ⟨12, 4, true⟩, ⟨u32At data 16, 4, true⟩] ++ rest) ∧
    (∀ s, s < u32At data 56 →
      (⟨u32At data 60 + 4 * s, 4, true⟩ : Access) ∈ (LoadFromL3D data size self).reads) := by
  refine ⟨by decide, ?_, ?_, ?_, ?_⟩
  · intro off
    simp [u32At, readBytes_four, leNat]
  · rw [LoadFromL3D_valid data size self hmagic]
    show (loadBody self).val data = _
    unfold loadBody loadSkinTable
    by_cases h : 0 < u32At data 12
    · simp [h, headerBase, L3DHeader.meshListOffset, L3DHeader.numMeshes,
        L3DHeader.skinListOffset, L3DHeader.numSkins]
    · simp [h, headerBase, L3DHeader.meshListOffset, L3DHeader.numMeshes,
        L3DHeader.skinListOffset, L3DHeader.numSkins]
  · intro h
    have hm : 0 < numMeshes data := h
    rw [LoadFromL3D_reads data size self hmagic, if_pos hm, log_loadFirstMesh]
    exact ⟨(loadMesh (u32At data (u32At data 16)) self).log data
      ++ ([⟨60, 4, true⟩, ⟨56, 4, true⟩] ++ skinAccesses data), by simp⟩
  · intro s hs
    rw [LoadFromL3D_reads data size self hmagic]
    have hmem : (⟨u32At data 60 + 4 * s, 4, true⟩ : Access) ∈ skinAccesses data := by
      unfold skinAccesses
      rw [List.mem_flatMap]
      exact ⟨s, List.mem_range.mpr hs, by simp [headerBase, L3DHeader.skinListOffset]⟩
    simp only [List.mem_append]
    exact Or.inr (Or.inr hmem)

/-- C12 at the minimal file: the mesh-offset table is read at byte 76 and the
skin-offset table at byte 190, the values of the header fields at bytes 16 and 60. -/
theorem C12_header_fields_at_absolute_offsets_witness :
    validMagic minimalFile ∧
    u32At minimalFile 12 = 1 ∧ u32At minimalFile 16 = 76 ∧
    u32At minimalFile 56 = 1 ∧ u32At minimalFile 60 = 190 ∧
    (⟨76, 4, true⟩ : Access) ∈ (LoadFromL3D minimalFile minimalSize SkinnedModel.empty).reads ∧
    (⟨190, 4, true⟩ : Access) ∈ (LoadFromL3D minimalFile minimalSize SkinnedModel.empty).reads ∧
    (∀ s, s < u32At minimalFile 56 →
      (⟨u32At minimalFile 60 + 4 * s, 4, true⟩ : Access)
        ∈ (LoadFromL3D minimalFile minimalSize SkinnedModel.empty).reads) :=
  ⟨by decide, by decide, by decide, by decide, by decide, by decide, by decide,
    (C12_header_fields_at_absolute_offsets minimalFile minimalSize SkinnedModel.empty
      (by decide)).2.2.2.2⟩

/-! ## C13 -/

/-- C13: whatever the buffer, the size and the prior model, every mesh resource a
load appends carries the same vertex declaration: attribute 0 is 3 floats at byte
offset 0, attribute 1 is 2 floats at byte offset 12, attribute 2 is 3 floats at byte
offset 20, each with stride 32, which is the stride of its vertex buffer and the
size of the vertex record.  Every byte below 32 belongs to one attribute, no byte
belongs to two, and no byte from 32 on belongs to any. -/
theorem C13_fixed_vertex_declaration (data : Buffer) (size : Nat) (self : SkinnedModel) :
    (∃ built, (LoadFromL3D data size self).model.submeshes = self.submeshes ++ built ∧
      ∀ m ∈ built,
        m.decl = [⟨0, 3, GLenum.GL_FLOAT, 32, 0⟩, ⟨1, 2, GLenum.GL_FLOAT, 32, 12⟩,
          ⟨2, 3, GLenum.GL_FLOAT, 32, 20⟩] ∧
        m.vertexBuffer.strideBytes = 32) ∧
    (∀ b, b < 32 ↔ ∃ a ∈ vertexDecl, a.coversByte b) ∧
    (∀ b, ∀ a1 ∈ vertexDecl, ∀ a2 ∈ vertexDecl,
      a1.coversByte b → a2.coversByte b → a1 = a2) ∧
    sizeofL3D_Vertex = 32 ∧ L3D_Vertex.members.size = 32 := by
  refine ⟨?_, ?_, ?_, by decide, by decide⟩
  · by_cases hv : validMagic data
    · by_cases hm : 1 ≤ numMeshes data
      · refine ⟨_, LoadFromL3D_submeshes data size self hv hm, ?_⟩
        intro m hmem
        obtain ⟨sm, _, rfl⟩ := List.mem_map.mp hmem
        exact ⟨rfl, rfl⟩
      · refine ⟨[], ?_, by simp⟩
        have h0 : ¬ 0 < numMeshes data := by omega
        rw [LoadFromL3D_model data size self hv]
        simp only [h0, if_false, List.append_nil]
        exact (val_loadSkins data _ _ 0 self).1
    · refine ⟨[], ?_, by simp⟩
      rw [LoadFromL3D_bad data size self hv]
      simp
  · intro b
    simp only [vertexDecl, List.mem_cons, List.mem_singleton, exists_eq_or_imp, exists_eq_left,
      VertexAttrib.coversByte, componentSize, Option.getD_some, List.not_mem_nil, false_and,
      exists_false, or_false]
    omega
  · intro b a1 h1 a2 h2 c1 c2
    simp only [vertexDecl, List.mem_cons, List.mem_singleton, List.not_mem_nil, or_false]
      at h1 h2
    rcases h1 with rfl | rfl | rfl <;> rcases h2 with rfl | rfl | rfl <;>
      simp only [VertexAttrib.coversByte, componentSize, Option.getD_some] at c1 c2 <;>
      first | rfl | omega

/-- C13 at the minimal file: the one mesh resource built. -/
theorem C13_fixed_vertex_declaration_witness :
    (LoadFromL3D minimalFile minimalSize SkinnedModel.empty).model.submeshes.map
        (fun m => (m.decl, m.vertexBuffer.strideBytes))
      = [([⟨0, 3, GLenum.GL_FLOAT, 32, 0⟩, ⟨1, 2, GLenum.GL_FLOAT, 32, 12⟩,
          ⟨2, 3, GLenum.GL_FLOAT, 32, 20⟩], 32)] ∧
    (∀ b, b < 32 ↔ ∃ a ∈ vertexDecl, a.coversByte b) :=
  ⟨by decide,
    (C13_fixed_vertex_declaration minimalFile minimalSize SkinnedModel.empty).2.1⟩

/-! ## C14 -/

/-- C14, as stated, fails for the internal format: the texture the minimal file's
skin record gives rise to is 256 by 256 and its source texels are read as
`GL_BGRA` / `GL_UNSIGNED_SHORT_4_4_4_4_REV` (4 bits per channel), but it is stored
with the internal format `GL_RGB5_A1`: 5 bits of red, green and blue and 1 bit of
alpha, not 4 bits per channel. -/
theorem C14_counterexample :
    (mapFind (LoadFromL3D minimalFile minimalSize SkinnedModel.empty).model.textures 7).map
        (Option.map (fun t => (t.width, t.height, t.internalFormat, t.format, t.type)))
      = some (some (256, 256, GLenum.GL_RGB5_A1, GLenum.GL_BGRA,
          GLenum.GL_UNSIGNED_SHORT_4_4_4_4_REV)) ∧
    channelBits GLenum.GL_UNSIGNED_SHORT_4_4_4_4_REV = some [4, 4, 4, 4] ∧
    channelBits GLenum.GL_RGB5_A1 = some [5, 5, 5, 1] ∧
    channelBits GLenum.GL_RGB5_A1 ≠ some [4, 4, 4, 4] := by
  decide

/-- C14, amended: every texture a call of `LoadFromL3D` creates (every non-null
texture of the model afterwards that is not the one the prior model held under the
same key) is 256 wide and 256 high and holds 65536 texels of 16 bits; the source
texels are interpreted as 16-bit, 4-bits-per-channel RGBA (`GL_BGRA` with
`GL_UNSIGNED_SHORT_4_4_4_4_REV`), and the texture is stored with the internal
format `GL_RGB5_A1`, 16 bits per texel with 5 bits of red, green and blue and 1 bit
of alpha. -/
theorem C14_skin_texture_format (data : Buffer) (size : Nat) (self : SkinnedModel)
    (key : Int) (t : Texture2D)
    (ht : mapFind (LoadFromL3D data size self).model.textures key = some (some t)) :
    mapFind self.textures key = some (some t) ∨
    (t.width = 256 ∧ t.height = 256 ∧ t.data.length = 2 * 65536 ∧
      t.format = GLenum.GL_BGRA ∧ t.type = GLenum.GL_UNSIGNED_SHORT_4_4_4_4_REV ∧
      channelBits t.type = some [4, 4, 4, 4] ∧
      t.internalFormat = GLenum.GL_RGB5_A1 ∧
      channelBits t.internalFormat = some [5, 5, 5, 1] ∧
      [4, 4, 4, 4].sum = 16 ∧ [5, 5, 5, 1].sum = 16) := by
  by_cases hv : validMagic data
  · obtain ⟨self1, hs1, hmodel⟩ := LoadFromL3D_textures data size self hv
    rw [hmodel] at ht
    rcases loadSkins_textures_origin data _ (numSkins data) 0 self1 key with h | ⟨j, _, _, h⟩
    · left
      rw [h, hs1] at ht
      exact ht
    · right
      rw [h] at ht
      have e : textureOf data (u32At data (u32At data (headerBase + L3DHeader.skinListOffset)
          + 4 * j)) = t := by
        simpa using ht
      rw [← e]
      refine ⟨rfl, rfl, ?_, rfl, rfl, rfl, rfl, rfl, by decide, by decide⟩
      simp [textureOf, readBytes_length, sizeofSkinData]
  · left
    rw [LoadFromL3D_bad data size self hv] at ht
    exact ht

/-- C14 amended, at the minimal file: the texture created for the skin 7. -/
theorem C14_skin_texture_format_witness :
    mapFind (LoadFromL3D minimalFile minimalSize SkinnedModel.empty).model.textures 7
      = some (some (textureOf minimalFile 194)) ∧
    mapFind SkinnedModel.empty.textures 7 = none ∧
    (mapFind SkinnedModel.empty.textures 7 = some (some (textureOf minimalFile 194)) ∨
    ((textureOf minimalFile 194).width = 256 ∧ (textureOf minimalFile 194).height = 256 ∧
      (textureOf minimalFile 194).data.length = 2 * 65536 ∧
      (textureOf minimalFile 194).format = GLenum.GL_BGRA ∧
      (textureOf minimalFile 194).type = GLenum.GL_UNSIGNED_SHORT_4_4_4_4_REV ∧
      channelBits (textureOf minimalFile 194).type = some [4, 4, 4, 4] ∧
      (textureOf minimalFile 194).internalFormat = GLenum.GL_RGB5_A1 ∧
      channelBits (textureOf minimalFile 194).internalFormat = some [5, 5, 5, 1] ∧
      [4, 4, 4, 4].sum = 16 ∧ [5, 5, 5, 1].sum = 16)) :=
  have h : mapFind (LoadFromL3D minimalFile minimalSize SkinnedModel.empty).model.textures 7
      = some (some (textureOf minimalFile 194)) := by
    rfl
  ⟨h, rfl, C14_skin_texture_format minimalFile minimalSize SkinnedModel.empty 7
    (textureOf minimalFile 194) h⟩

/-! ## C15 -/

/-- C15: if two buffers with valid magic and all reads in bounds differ only in
bytes of fields the loader does not interpret, and none of those bytes is also a
byte of an interpreted field of another record, then the two loads end the same
way and leave the same mesh resources, the same submesh-to-skin map and the same
textures, whichever allocations fail. -/
theorem C15_uninterpreted_bytes_do_not_matter (heap : Heap) (d1 d2 : Buffer) (size : Nat)
    (self : SkinnedModel)
    (_hmagic1 : validMagic d1) (_hmagic2 : validMagic d2)
    (_hin1 : allInBounds (LoadFromL3DWith heap d1 size self).reads size)
    (_hin2 : allInBounds (LoadFromL3DWith heap d2 size self).reads size)
    (hdiff : ∀ i, d1 i % 256 ≠ d2 i % 256 → uninterpretedByte d1 i ∧ ¬ interpretedByte d1 i) :
    (LoadFromL3DWith heap d2 size self).outcome = (LoadFromL3DWith heap d1 size self).outcome ∧
    (LoadFromL3DWith heap d2 size self).model.submeshes
      = (LoadFromL3DWith heap d1 size self).model.submeshes ∧
    (LoadFromL3DWith heap d2 size self).model.submeshSkinMap
      = (LoadFromL3DWith heap d1 size self).model.submeshSkinMap ∧
    (LoadFromL3DWith heap d2 size self).model.textures
      = (LoadFromL3DWith heap d1 size self).model.textures ∧
    (LoadFromL3D d2 size self).outcome = (LoadFromL3D d1 size self).outcome ∧
    (LoadFromL3D d2 size self).model = (LoadFromL3D d1 size self).model := by
  have hagree : ∀ hp : Heap, agreeOn (LoadFromL3DWith hp d1 size self).reads d1 d2 := by
    intro hp a ha hu i hc
    by_contra hne
    exact (hdiff i hne).2 (LoadFromL3DWith_reads_interpreted hp d1 size self a ha hu i hc)
  have h1 := LoadFromL3DWith_congr heap d1 d2 size self (hagree heap)
  have h2 := LoadFromL3DWith_congr allSucceed d1 d2 size self (hagree allSucceed)
  rw [LoadFromL3DWith_allSucceed allSucceed (fun _ => rfl),
    LoadFromL3DWith_allSucceed allSucceed (fun _ => rfl)] at h2
  rw [h1, h2]
  exact ⟨rfl, rfl, rfl, rfl, rfl, rfl⟩

/-- C15 at `boneFile` and `variedFile`, which differ in six uninterpreted fields. -/
theorem C15_uninterpreted_bytes_do_not_matter_witness :
    validMagic boneFile ∧ validMagic variedFile ∧
    allInBounds (LoadFromL3DWith allSucceed boneFile boneFileSize SkinnedModel.empty).reads
      boneFileSize ∧
    allInBounds (LoadFromL3DWith allSucceed variedFile boneFileSize SkinnedModel.empty).reads
      boneFileSize ∧
    u32At boneFile 4 ≠ u32At variedFile 4 ∧ u32At boneFile 140 ≠ u32At variedFile 140 ∧
    u32At boneFile 131330 ≠ u32At variedFile 131330 ∧
    ((LoadFromL3DWith allSucceed variedFile boneFileSize SkinnedModel.empty).outcome
      = (LoadFromL3DWith allSucceed boneFile boneFileSize SkinnedModel.empty).outcome ∧
    (LoadFromL3DWith allSucceed variedFile boneFileSize SkinnedModel.empty).model.submeshes
      = (LoadFromL3DWith allSucceed boneFile boneFileSize SkinnedModel.empty).model.submeshes ∧
    (LoadFromL3DWith allSucceed variedFile boneFileSize SkinnedModel.empty).model.submeshSkinMap
      = (LoadFromL3DWith allSucceed boneFile boneFileSize
          SkinnedModel.empty).model.submeshSkinMap ∧
    (LoadFromL3DWith allSucceed variedFile boneFileSize SkinnedModel.empty).model.textures
      = (LoadFromL3DWith allSucceed boneFile boneFileSize SkinnedModel.empty).model.textures ∧
    (LoadFromL3D variedFile boneFileSize SkinnedModel.empty).outcome
      = (LoadFromL3D boneFile boneFileSize SkinnedModel.empty).outcome ∧
    (LoadFromL3D variedFile boneFileSize SkinnedModel.empty).model
      = (LoadFromL3D boneFile boneFileSize SkinnedModel.empty).model) :=
  ⟨by decide, by decide, by decide, by decide, by decide, by decide, by decide,
    C15_uninterpreted_bytes_do_not_matter allSucceed boneFile variedFile boneFileSize
      SkinnedModel.empty (by decide) (by decide) (by decide) (by decide)
      (fun i h => variedFile_fields i (variedFile_differs i h))⟩

/-! ## C16 -/

/-- C16: for a buffer with valid magic and `numMeshes` 0 whose reads are in bounds,
`LoadFromL3D` succeeds, leaves the mesh-resource list and the submesh-to-skin map as
they were, and gives the identifier of each of the `numSkins` skin records a
texture; its reads are the magic, the four header fields and those of the skin
phase: the mesh-offset table is not dereferenced. -/
theorem C16_skin_phase_without_mesh (data : Buffer) (size : Nat) (self : SkinnedModel)
    (hmagic : validMagic data) (hnone : numMeshes data = 0)
    (_hin : allInBounds (LoadFromL3D data size self).reads size) :
    (LoadFromL3D data size self).outcome = Except.ok () ∧
    (LoadFromL3D data size self).model.submeshes = self.submeshes ∧
    (LoadFromL3D data size self).model.submeshSkinMap = self.submeshSkinMap ∧
    (∀ s, s < numSkins data →
      ∃ t, mapFind (LoadFromL3D data size self).model.textures
        (skinKey (u32At data (skinAt data s))) = some (some t)) ∧
    (LoadFromL3D data size self).reads =
      magicAccesses ++ [⟨16, 4, true⟩, ⟨12, 4, true⟩, ⟨60, 4, true⟩, ⟨56, 4, true⟩]
        ++ skinAccesses data := by
  have h0 : ¬ 0 < numMeshes data := by omega
  refine ⟨by rw [LoadFromL3D_valid data size self hmagic], ?_, ?_, ?_, ?_⟩
  · rw [LoadFromL3D_model data size self hmagic]
    simp only [h0, if_false]
    exact (val_loadSkins data _ _ 0 self).1
  · rw [LoadFromL3D_model data size self hmagic]
    simp only [h0, if_false]
    exact (val_loadSkins data _ _ 0 self).2.1
  · intro s hs
    rw [LoadFromL3D_model data size self hmagic]
    simp only [h0, if_false]
    exact loadSkins_textures_present data _ (numSkins data) 0 self s (Nat.zero_le s) (by omega)
  · rw [LoadFromL3D_reads data size self hmagic]
    simp [h0]

/-- C16 at the minimal file with `numMeshes` set to 0. -/
theorem C16_skin_phase_without_mesh_witness :
    validMagic noMeshFile ∧ numMeshes noMeshFile = 0 ∧
    allInBounds (LoadFromL3D noMeshFile minimalSize SkinnedModel.empty).reads minimalSize ∧
    numSkins noMeshFile = 1 ∧
    mapKeys (LoadFromL3D noMeshFile minimalSize SkinnedModel.empty).model.textures = [7] ∧
    ((LoadFromL3D noMeshFile minimalSize SkinnedModel.empty).outcome = Except.ok () ∧
    (LoadFromL3D noMeshFile minimalSize SkinnedModel.empty).model.submeshes
      = SkinnedModel.empty.submeshes ∧
    (LoadFromL3D noMeshFile minimalSize SkinnedModel.empty).model.submeshSkinMap
      = SkinnedModel.empty.submeshSkinMap ∧
    (∀ s, s < numSkins noMeshFile →
      ∃ t, mapFind (LoadFromL3D noMeshFile minimalSize SkinnedModel.empty).model.textures
        (skinKey (u32At noMeshFile (skinAt noMeshFile s))) = some (some t)) ∧
    (LoadFromL3D noMeshFile minimalSize SkinnedModel.empty).reads =
      magicAccesses ++ [⟨16, 4, true⟩, ⟨12, 4, true⟩, ⟨60, 4, true⟩, ⟨56, 4, true⟩]
        ++ skinAccesses noMeshFile) :=
  ⟨by decide, by decide, by decide, by decide, by decide,
    C16_skin_phase_without_mesh noMeshFile minimalSize SkinnedModel.empty
      (by decide) (by decide) (by decide)⟩

/-! ## C17 -/

/-- C17: after a load of an in-bounds buffer with valid magic into an empty model,
the keys of the submesh-to-skin map are exactly the positions below the number of
mesh resources of the model, so that the first lookup of `Draw` at each such
position finds an entry. -/
theorem C17_skin_map_keys_are_positions (data : Buffer) (size : Nat)
    (hmagic : validMagic data)
    (_hin : allInBounds (LoadFromL3D data size SkinnedModel.empty).reads size) :
    (∀ key, key ∈ mapKeys (LoadFromL3D data size SkinnedModel.empty).model.submeshSkinMap ↔
      key < (LoadFromL3D data size SkinnedModel.empty).model.submeshes.length) ∧
    (∀ i, i < (LoadFromL3D data size SkinnedModel.empty).model.submeshes.length →
      ∃ k, mapFind (LoadFromL3D data size SkinnedModel.empty).model.submeshSkinMap i = some k) := by
  have hkeys : ∀ key,
      key ∈ mapKeys (LoadFromL3D data size SkinnedModel.empty).model.submeshSkinMap ↔
      key < (LoadFromL3D data size SkinnedModel.empty).model.submeshes.length := by
    intro key
    rw [LoadFromL3D_model data size SkinnedModel.empty hmagic]
    rw [(val_loadSkins data _ _ 0 _).1, (val_loadSkins data _ _ 0 _).2.1]
    by_cases hm : 0 < numMeshes data
    · simp only [hm, if_true]
      rw [(val_loadSubMeshes data _ _ 0 SkinnedModel.empty).2.2.2 key,
        (val_loadSubMeshes data _ _ 0 SkinnedModel.empty).1]
      simp [SkinnedModel.empty, mapKeys]
    · simp [hm, SkinnedModel.empty, mapKeys]
  refine ⟨hkeys, ?_⟩
  intro i hi
  have := (mapFind_isSome_iff_mem_mapKeys _ i).mpr ((hkeys i).mpr hi)
  exact Option.isSome_iff_exists.mp this

/-- C17 at the minimal file: one mesh resource, one key, 0. -/
theorem C17_skin_map_keys_are_positions_witness :
    validMagic minimalFile ∧
    allInBounds (LoadFromL3D minimalFile minimalSize SkinnedModel.empty).reads minimalSize ∧
    mapKeys (LoadFromL3D minimalFile minimalSize SkinnedModel.empty).model.submeshSkinMap = [0] ∧
    (LoadFromL3D minimalFile minimalSize SkinnedModel.empty).model.submeshes.length = 1 ∧
    ((∀ key,
      key ∈ mapKeys (LoadFromL3D minimalFile minimalSize SkinnedModel.empty).model.submeshSkinMap ↔
      key < (LoadFromL3D minimalFile minimalSize SkinnedModel.empty).model.submeshes.length) ∧
    (∀ i, i < (LoadFromL3D minimalFile minimalSize SkinnedModel.empty).model.submeshes.length →
      ∃ k, mapFind (LoadFromL3D minimalFile minimalSize SkinnedModel.empty).model.submeshSkinMap i
        = some k)) :=
  ⟨by decide, by decide, by decide, by decide,
    C17_skin_map_keys_are_positions minimalFile minimalSize (by decide) (by decide)⟩

/-! ## C18 -/

/-- C18: a successful load of an in-bounds buffer whose first mesh has `n` submeshes
into a model that already holds `k > 0` mesh resources keeps them: the model then
holds `k + n` mesh resources, the old `k` first and the new `n` after them, in
table order.  The submesh-to-skin entries of the keys below `n` are overwritten
with the skin identifiers of the file, and the other keys keep their entries: the
entry of the key `k + j`, the position of the new mesh resource `j`, is the skin
identifier of submesh `k + j` of the file when `k + j < n` and the entry of the
prior model otherwise, not the skin identifier of submesh `j` as such. -/
theorem C18_load_appends_and_overwrites_keys (data : Buffer) (size : Nat)
    (self : SkinnedModel) (hmagic : validMagic data) (hmesh : 1 ≤ numMeshes data)
    (_hin : allInBounds (LoadFromL3D data size self).reads size)
    (_hk : 0 < self.submeshes.length) :
    (LoadFromL3D data size self).model.submeshes.length
      = self.submeshes.length + numSubMeshes data ∧
    (∀ i, i < self.submeshes.length →
      (LoadFromL3D data size self).model.submeshes[i]? = self.submeshes[i]?) ∧
    (∀ j, j < numSubMeshes data →
      (LoadFromL3D data size self).model.submeshes[self.submeshes.length + j]?
        = some (meshOf data (subMeshAt data j)) ∧
      mapFind (LoadFromL3D data size self).model.submeshSkinMap j
        = some (i32At data (subMeshAt data j + 8)) ∧
      mapFind (LoadFromL3D data size self).model.submeshSkinMap (self.submeshes.length + j)
        = (if self.submeshes.length + j < numSubMeshes data
            then some (i32At data (subMeshAt data (self.submeshes.length + j) + 8))
            else mapFind self.submeshSkinMap (self.submeshes.length + j))) ∧
    (∀ key, numSubMeshes data ≤ key →
      mapFind (LoadFromL3D data size self).model.submeshSkinMap key
        = mapFind self.submeshSkinMap key) := by
  have hm : 0 < numMeshes data := hmesh
  have hsub := LoadFromL3D_submeshes data size self hmagic hmesh
  have hmap : ∀ key, mapFind (LoadFromL3D data size self).model.submeshSkinMap key
      = if key < numSubMeshes data then some (i32At data (subMeshAt data key + 8))
        else mapFind self.submeshSkinMap key := by
    intro key
    rw [LoadFromL3D_model data size self hmagic]
    simp only [hm, if_true]
    rw [(val_loadSkins data _ _ 0 _).2.1, (val_loadSubMeshes data _ _ 0 self).2.2.1 key]
    by_cases hk : key < numSubMeshes data
    · rw [if_pos (show 0 ≤ key ∧ key < 0 + numSubMeshes data by omega), if_pos hk]
      rfl
    · rw [if_neg (show ¬ (0 ≤ key ∧ key < 0 + numSubMeshes data) by omega), if_neg hk]
  refine ⟨by simp [hsub], ?_, ?_, ?_⟩
  · intro i hi
    rw [hsub, List.getElem?_append_left hi]
  · intro j hj
    refine ⟨?_, ?_, hmap _⟩
    · rw [hsub, List.getElem?_append_right (Nat.le_add_right _ _)]
      simp [hj]
    · rw [hmap j, if_pos hj]
  · intro key hkey
    rw [hmap key, if_neg (by omega)]

/-- C18 at the minimal file loaded into a model holding one mesh resource with the
skin identifier 3: the old resource stays first and the key 0 now holds 7, and the
new resource, at position 1, has no entry at all. -/
theorem C18_load_appends_and_overwrites_keys_witness :
    validMagic minimalFile ∧ 1 ≤ numMeshes minimalFile ∧
    allInBounds (LoadFromL3D minimalFile minimalSize loadedModel).reads minimalSize ∧
    0 < loadedModel.submeshes.length ∧
    (LoadFromL3D minimalFile minimalSize loadedModel).model.submeshSkinMap = [(0, 7)] ∧
    mapFind (LoadFromL3D minimalFile minimalSize loadedModel).model.submeshSkinMap 1 = none ∧
    (LoadFromL3D minimalFile minimalSize loadedModel).model.submeshes.length
      = loadedModel.submeshes.length + numSubMeshes minimalFile ∧
    (∀ key, numSubMeshes minimalFile ≤ key →
      mapFind (LoadFromL3D minimalFile minimalSize loadedModel).model.submeshSkinMap key
        = mapFind loadedModel.submeshSkinMap key) :=
  ⟨by decide, by decide, by decide, by decide, by decide, by decide,
    (C18_load_appends_and_overwrites_keys minimalFile minimalSize loadedModel
      (by decide) (by decide) (by decide) (by decide)).1,
    (C18_load_appends_and_overwrites_keys minimalFile minimalSize loadedModel
      (by decide) (by decide) (by decide) (by decide)).2.2.2⟩

/-! ## C19 -/

/-- C19: on a model in which every position below the number of mesh resources has a
submesh-to-skin entry whose identifier has a texture, `Draw` completes and leaves
the mesh-resource list, the submesh-to-skin map and the skin-to-texture map as
they were: its lookups insert no key into either map. -/
theorem C19_draw_leaves_consistent_model_unchanged (self : SkinnedModel)
    (h : self.consistent) :
    (Draw self).faulted = false ∧
    (Draw self).model.submeshes = self.submeshes ∧
    (Draw self).model.submeshSkinMap = self.submeshSkinMap ∧
    (Draw self).model.textures = self.textures ∧
    mapKeys (Draw self).model.submeshSkinMap = mapKeys self.submeshSkinMap ∧
    mapKeys (Draw self).model.textures = mapKeys self.textures := by
  have h0 : ∀ j, j < self.submeshes.length → (skinTexture self (0 + j)).isSome = true := by
    intro j hj
    simpa using h j hj
  unfold Draw
  rw [drawLoop_consistent self self.submeshes 0 [] h0]
  exact ⟨rfl, rfl, rfl, rfl, rfl, rfl⟩

/-- C19 at a model with two mesh resources sharing one skin. -/
theorem C19_draw_leaves_consistent_model_unchanged_witness :
    sharedSkinModel.consistent ∧
    ((Draw sharedSkinModel).faulted = false ∧
    (Draw sharedSkinModel).model.submeshes = sharedSkinModel.submeshes ∧
    (Draw sharedSkinModel).model.submeshSkinMap = sharedSkinModel.submeshSkinMap ∧
    (Draw sharedSkinModel).model.textures = sharedSkinModel.textures ∧
    mapKeys (Draw sharedSkinModel).model.submeshSkinMap = mapKeys sharedSkinModel.submeshSkinMap ∧
    mapKeys (Draw sharedSkinModel).model.textures = mapKeys sharedSkinModel.textures) :=
  have hc : sharedSkinModel.consistent := by
    intro i hi
    have hi2 : i < 2 := hi
    interval_cases i <;> rfl
  ⟨hc, C19_draw_leaves_consistent_model_unchanged sharedSkinModel hc⟩

/-! ## C20 -/

/-- C20: `LoadFromL3D` never consults the buffer length: for every buffer, every
prior model and any two values of the `size` argument, the two calls end the same
way (success or format error), leave the same mesh resources, submesh-to-skin map
and textures, and perform the same reads. -/
theorem C20_size_is_never_consulted (data : Buffer) (size1 size2 : Nat) (self : SkinnedModel) :
    (LoadFromL3D data size1 self).outcome = (LoadFromL3D data size2 self).outcome ∧
    (LoadFromL3D data size1 self).model.submeshes
      = (LoadFromL3D data size2 self).model.submeshes ∧
    (LoadFromL3D data size1 self).model.submeshSkinMap
      = (LoadFromL3D data size2 self).model.submeshSkinMap ∧
    (LoadFromL3D data size1 self).model.textures
      = (LoadFromL3D data size2 self).model.textures ∧
    (LoadFromL3D data size1 self).reads = (LoadFromL3D data size2 self).reads :=
  ⟨rfl, rfl, rfl, rfl, rfl⟩

/-- C20 at the minimal file, with its true length and with length 0. -/
theorem C20_size_is_never_consulted_witness :
    (LoadFromL3D minimalFile minimalSize SkinnedModel.empty).model.submeshSkinMap = [(0, 7)] ∧
    (LoadFromL3D minimalFile 0 SkinnedModel.empty).model.submeshSkinMap = [(0, 7)] ∧
    (LoadFromL3D minimalFile minimalSize SkinnedModel.empty).model.textures
      = (LoadFromL3D minimalFile 0 SkinnedModel.empty).model.textures :=
  ⟨by decide, by decide,
    (C20_size_is_never_consulted minimalFile minimalSize 0 SkinnedModel.empty).2.2.2.1⟩

end OpenBlack
